import Mathlib

/-!
SceneManager: texture registry, material registry and transform composition

A shallow embedding of `3dScene/source/SceneManager.cpp`.

* C++ `float` values are elements of a scalar type `K` (exact arithmetic).
* `int` values are `Int`; `GLuint`/`GLenum` values are `Nat` (reduced modulo `2^32`
  where a conversion to `int` happens).
* The OpenGL context and the shader manager are external: they are modelled as
  explicit states that record the calls made on them, in order.
* An access to `m_textureIDs` outside `0..15` is undefined behaviour in C++; the
  embedding reports it as `Outcome.outOfBounds`. So is a call made through
  `m_pShaderManager` without a test when that pointer is `NULL`.
* `while`/`for` loops are unrolled with a fuel counter; running out of fuel is
  `Outcome.outOfFuel`. The theorems below show that the fuel each function passes to
  its loop is enough: the results they state are `Outcome.ok` values.
-/

/-- Result of running a piece of the program. -/
inductive Outcome (α : Type) where
  | ok : α → Outcome α
  | outOfBounds : Outcome α
  | outOfFuel : Outcome α
  deriving DecidableEq, Repr

/-- Entry of the texture table (`TEXTURE_INFO`): the tag and the OpenGL texture name.
`ID` is a `GLuint` (its address is handed to `glGenTextures`). -/
structure TEXTURE_INFO where
  tag : String
  ID : Nat
  deriving DecidableEq, Repr

/-- Three-component vector (`glm::vec3`). -/
structure Vec3 (K : Type) where
  x : K
  y : K
  z : K
  deriving DecidableEq, Repr

/-- Material record (`OBJECT_MATERIAL`). -/
structure OBJECT_MATERIAL (K : Type) where
  ambientColor : Vec3 K
  ambientStrength : K
  diffuseColor : Vec3 K
  specularColor : Vec3 K
  shininess : K
  tag : String
  deriving DecidableEq, Repr

/-! ## OpenGL context (external collaborator) -/

/-- Calls of the OpenGL API that the scene manager issues (plus `glDeleteTextures`,
the API call that releases texture names). -/
inductive GLCall where
  | glGenTextures (n : Nat) (name : Nat)
  | glDeleteTextures (n : Nat) (name : Nat)
  | glBindTexture (target : Nat) (texture : Nat)
  | glActiveTexture (unit : Nat)
  | glTexParameteri (target : Nat) (pname : Nat) (param : Nat)
  | glTexImage2D (target : Nat) (level : Int) (internalformat : Nat)
      (width : Int) (height : Int) (border : Int) (format : Nat) (type : Nat)
  | glGenerateMipmap (target : Nat)
  deriving DecidableEq, Repr

/-- State of the OpenGL context: the calls received so far (oldest first) and the
texture names currently in use. -/
structure GLContext where
  calls : List GLCall
  textures : List Nat
  deriving DecidableEq, Repr

def GL_TEXTURE_2D : Nat := 0x0DE1
def GL_TEXTURE_WRAP_S : Nat := 0x2802
def GL_TEXTURE_WRAP_T : Nat := 0x2803
def GL_TEXTURE_MIN_FILTER : Nat := 0x2801
def GL_TEXTURE_MAG_FILTER : Nat := 0x2800
def GL_REPEAT : Nat := 0x2901
def GL_LINEAR : Nat := 0x2601
def GL_RGB : Nat := 0x1907
def GL_RGBA : Nat := 0x1908
def GL_RGB8 : Nat := 0x8051
def GL_RGBA8 : Nat := 0x8058
def GL_UNSIGNED_BYTE : Nat := 0x1401
def GL_TEXTURE0 : Int := 0x84C0

/-- A texture name that is not in use: one more than the greatest name in use.
(OpenGL promises only that the name returned by `glGenTextures` is unused.) -/
def GLContext.freshName (gl : GLContext) : Nat :=
  gl.textures.foldr max 0 + 1

/-- The call `glGenTextures(1, &name)`: returns an unused name and marks it used. -/
def GLContext.glGenTextures (gl : GLContext) : Nat × GLContext :=
  (gl.freshName,
    { calls := gl.calls ++ [GLCall.glGenTextures 1 gl.freshName],
      textures := gl.freshName :: gl.textures })

/-- Any other call this file issues: it is recorded, the set of names is unchanged. -/
def GLContext.call (gl : GLContext) (c : GLCall) : GLContext :=
  { gl with calls := gl.calls ++ [c] }

/-! ## Image decoding (external collaborator) -/

/-- What `stbi_load` reports about a decoded image. -/
structure STBImage where
  width : Int
  height : Int
  colorChannels : Int
  deriving DecidableEq, Repr

/-! ## Shader manager (external collaborator) -/

/-- Value pushed to a shader uniform. -/
inductive UniformValue (K : Type) where
  | int (v : Int)
  | sampler2D (v : Int)
  | float (v : K)
  | vec2 (u v : K)
  | vec3 (v : Vec3 K)
  | vec4 (r g b a : K)
  | mat4 (m : Matrix (Fin 4) (Fin 4) K)

/-- The shader manager: the uniform pushes received so far, oldest first. -/
structure ShaderManager (K : Type) where
  uniforms : List (String × UniformValue K)

def ShaderManager.push {K : Type} (sh : ShaderManager K) (name : String)
    (v : UniformValue K) : ShaderManager K :=
  { uniforms := sh.uniforms ++ [(name, v)] }

/-! ## The scene manager -/

/-- Fields of `class SceneManager` used by the texture registry, the material
registry and the transform pipeline. `m_pShaderManager` is a pointer that may be
`NULL` (`none`). `m_textureIDs` is the C array `TEXTURE_INFO m_textureIDs[16]`. -/
structure SceneManager (K : Type) where
  m_pShaderManager : Option (ShaderManager K)
  m_textureIDs : Fin 16 → TEXTURE_INFO
  m_loadedTextures : Int
  m_objectMaterials : List (OBJECT_MATERIAL K)

def g_ModelName : String := "model"
def g_ColorValueName : String := "objectColor"
def g_TextureValueName : String := "objectTexture"
def g_UseTextureName : String := "bUseTexture"
def g_UseLightingName : String := "bUseLighting"

/-- Conversion of a `GLuint` to `int` (two's complement, 32 bits). -/
def toInt32 (n : Nat) : Int :=
  if n % 2 ^ 32 < 2 ^ 31 then ((n % 2 ^ 32 : Nat) : Int) else ((n % 2 ^ 32 : Nat) : Int) - 2 ^ 32

/-- Conversion of an `int` to `GLuint` (reduction modulo `2^32`). -/
def toUInt32 (i : Int) : Nat :=
  (i % 2 ^ 32).toNat

namespace SceneManager

variable {K : Type}

/-- The constructor `SceneManager(ShaderManager*)`: every one of the 16 table entries
gets tag `"/0"` and ID `-1` (as a `GLuint`), and no texture is loaded. -/
def construct (pShaderManager : Option (ShaderManager K)) : SceneManager K :=
  { m_pShaderManager := pShaderManager,
    m_textureIDs := fun _ => { tag := "/0", ID := toUInt32 (-1) },
    m_loadedTextures := 0,
    m_objectMaterials := [] }

/-- Read of `m_textureIDs[index]`; `none` when the index is outside the array. -/
def textureAt (s : SceneManager K) (index : Int) : Option TEXTURE_INFO :=
  if h : 0 ≤ index ∧ index < 16 then some (s.m_textureIDs ⟨index.toNat, by omega⟩) else none

/-- Write of `m_textureIDs[index] = e`; `none` when the index is outside the array. -/
def setTextureAt (s : SceneManager K) (index : Int) (e : TEXTURE_INFO) :
    Option (SceneManager K) :=
  if h : 0 ≤ index ∧ index < 16 then
    some { s with m_textureIDs := Function.update s.m_textureIDs ⟨index.toNat, by omega⟩ e }
  else none

/-- `CreateGLTexture(filename, tag)`. `stbi_load` is the image decoder (with the file
system behind it): `none` when the file cannot be read or decoded. -/
def CreateGLTexture (stbi_load : String → Option STBImage) (s : SceneManager K)
    (gl : GLContext) (filename : String) (tag : String) :
    Outcome (Bool × SceneManager K × GLContext) :=
  match stbi_load filename with
  | some image =>
    let (textureID, gl1) := gl.glGenTextures
    let gl2 := gl1.call (GLCall.glBindTexture GL_TEXTURE_2D textureID)
    let gl3 := gl2.call (GLCall.glTexParameteri GL_TEXTURE_2D GL_TEXTURE_WRAP_S GL_REPEAT)
    let gl4 := gl3.call (GLCall.glTexParameteri GL_TEXTURE_2D GL_TEXTURE_WRAP_T GL_REPEAT)
    let gl5 := gl4.call (GLCall.glTexParameteri GL_TEXTURE_2D GL_TEXTURE_MIN_FILTER GL_LINEAR)
    let gl6 := gl5.call (GLCall.glTexParameteri GL_TEXTURE_2D GL_TEXTURE_MAG_FILTER GL_LINEAR)
    let uploaded : Option GLContext :=
      if image.colorChannels = 3 then
        some (gl6.call (GLCall.glTexImage2D GL_TEXTURE_2D 0 GL_RGB8 image.width image.height 0
          GL_RGB GL_UNSIGNED_BYTE))
      else if image.colorChannels = 4 then
        some (gl6.call (GLCall.glTexImage2D GL_TEXTURE_2D 0 GL_RGBA8 image.width image.height 0
          GL_RGBA GL_UNSIGNED_BYTE))
      else none
    match uploaded with
    | none => Outcome.ok (false, s, gl6)
    | some gl7 =>
      let gl8 := gl7.call (GLCall.glGenerateMipmap GL_TEXTURE_2D)
      let gl9 := gl8.call (GLCall.glBindTexture GL_TEXTURE_2D 0)
      match setTextureAt s s.m_loadedTextures { tag := tag, ID := textureID } with
      | none => Outcome.outOfBounds
      | some s1 =>
        Outcome.ok (true, { s1 with m_loadedTextures := s1.m_loadedTextures + 1 }, gl9)
  | none => Outcome.ok (false, s, gl)

/-- The loop of `BindGLTextures`, from counter value `i`. -/
def BindGLTextures.loop (s : SceneManager K) : Nat → Int → GLContext → Outcome GLContext
  | 0, _, _ => Outcome.outOfFuel
  | fuel + 1, i, gl =>
    if i < s.m_loadedTextures then
      match textureAt s i with
      | none => Outcome.outOfBounds
      | some e =>
        BindGLTextures.loop s fuel (i + 1)
          ((gl.call (GLCall.glActiveTexture (toUInt32 (GL_TEXTURE0 + i)))).call
            (GLCall.glBindTexture GL_TEXTURE_2D e.ID))
    else Outcome.ok gl

/-- `BindGLTextures()`. -/
def BindGLTextures (s : SceneManager K) (gl : GLContext) : Outcome GLContext :=
  BindGLTextures.loop s (s.m_loadedTextures.toNat + 1) 0 gl

/-- The loop of `DestroyGLTextures`, from counter value `i`: each round calls
`glGenTextures(1, &m_textureIDs[i].ID)`, which stores the generated name in the entry. -/
def DestroyGLTextures.loop : Nat → Int → SceneManager K → GLContext →
    Outcome (SceneManager K × GLContext)
  | 0, _, _, _ => Outcome.outOfFuel
  | fuel + 1, i, s, gl =>
    if i < s.m_loadedTextures then
      match textureAt s i with
      | none => Outcome.outOfBounds
      | some e =>
        let (name, gl1) := gl.glGenTextures
        match setTextureAt s i { e with ID := name } with
        | none => Outcome.outOfBounds
        | some s1 => DestroyGLTextures.loop fuel (i + 1) s1 gl1
    else Outcome.ok (s, gl)

/-- `DestroyGLTextures()`. -/
def DestroyGLTextures (s : SceneManager K) (gl : GLContext) :
    Outcome (SceneManager K × GLContext) :=
  DestroyGLTextures.loop (s.m_loadedTextures.toNat + 1) 0 s gl

/-- The loop of `FindTextureID`, from the state `(index, bFound, textureID)`. -/
def FindTextureID.loop (s : SceneManager K) (tag : String) :
    Nat → Int → Bool → Int → Outcome Int
  | 0, _, _, _ => Outcome.outOfFuel
  | fuel + 1, index, bFound, textureID =>
    if index < s.m_loadedTextures ∧ bFound = false then
      match textureAt s index with
      | none => Outcome.outOfBounds
      | some e =>
        if e.tag = tag then FindTextureID.loop s tag fuel index true (toInt32 e.ID)
        else FindTextureID.loop s tag fuel (index + 1) bFound textureID
    else Outcome.ok textureID

/-- `FindTextureID(tag)`. -/
def FindTextureID (s : SceneManager K) (tag : String) : Outcome Int :=
  FindTextureID.loop s tag (s.m_loadedTextures.toNat + 1) 0 false (-1)

/-- The loop of `FindTextureSlot`, from the state `(index, bFound, textureSlot)`. -/
def FindTextureSlot.loop (s : SceneManager K) (tag : String) :
    Nat → Int → Bool → Int → Outcome Int
  | 0, _, _, _ => Outcome.outOfFuel
  | fuel + 1, index, bFound, textureSlot =>
    if index < s.m_loadedTextures ∧ bFound = false then
      match textureAt s index with
      | none => Outcome.outOfBounds
      | some e =>
        if e.tag = tag then FindTextureSlot.loop s tag fuel index true index
        else FindTextureSlot.loop s tag fuel (index + 1) bFound textureSlot
    else Outcome.ok textureSlot

/-- `FindTextureSlot(tag)`. -/
def FindTextureSlot (s : SceneManager K) (tag : String) : Outcome Int :=
  FindTextureSlot.loop s tag (s.m_loadedTextures.toNat + 1) 0 false (-1)

/-- The table entry `i` is registered (its index is below `m_loadedTextures`) and
carries `tag`. -/
def carries (s : SceneManager K) (tag : String) (i : Fin 16) : Prop :=
  (i.val : Int) < s.m_loadedTextures ∧ (s.m_textureIDs i).tag = tag

instance carriesDecidable (s : SceneManager K) (tag : String) (i : Fin 16) :
    Decidable (carries s tag i) :=
  inferInstanceAs (Decidable ((i.val : Int) < s.m_loadedTextures ∧ (s.m_textureIDs i).tag = tag))

/-- A registry holding three textures, registered under the tags "a", "b", "a". -/
def exampleRegistry : SceneManager ℚ :=
  { m_pShaderManager := none,
    m_textureIDs := fun i =>
      if i.val = 0 then { tag := "a", ID := 1 }
      else if i.val = 1 then { tag := "b", ID := 2 }
      else if i.val = 2 then { tag := "a", ID := 3 }
      else { tag := "/0", ID := toUInt32 (-1) },
    m_loadedTextures := 3,
    m_objectMaterials := [] }

/-- A decoder that knows two files: a 3-channel and a 4-channel image, and a
single-channel one; every other file fails to decode. -/
def exampleDecoder (filename : String) : Option STBImage :=
  if filename = "rgb.jpg" then some { width := 2, height := 2, colorChannels := 3 }
  else if filename = "rgba.png" then some { width := 2, height := 2, colorChannels := 4 }
  else if filename = "grey.png" then some { width := 2, height := 2, colorChannels := 1 }
  else none

/-- An OpenGL context that has received no call. -/
def emptyGL : GLContext :=
  { calls := [], textures := [] }

/-- The ID stored at index `i` of the texture table (0 outside the table). -/
def slotID (s : SceneManager K) (i : Nat) : Nat :=
  if h : i < 16 then (s.m_textureIDs ⟨i, h⟩).ID else 0

/-- One round of copying in `FindMaterial`: the five property fields of the list
entry `m` are assigned to the out-parameter; its `tag` is not assigned. -/
def copyMaterial (m : OBJECT_MATERIAL K) (material : OBJECT_MATERIAL K) : OBJECT_MATERIAL K :=
  { material with
    ambientColor := m.ambientColor,
    ambientStrength := m.ambientStrength,
    diffuseColor := m.diffuseColor,
    specularColor := m.specularColor,
    shininess := m.shininess }

/-- The loop of `FindMaterial`, from the state `(index, bFound)` with the current
contents of the out-parameter `material`. `index` starts at 0 and only grows, so the
comparison with the unsigned `size()` is a comparison of non-negative numbers. -/
def FindMaterial.loop (s : SceneManager K) (tag : String) :
    Nat → Int → Bool → OBJECT_MATERIAL K → Outcome (OBJECT_MATERIAL K)
  | 0, _, _, _ => Outcome.outOfFuel
  | fuel + 1, index, bFound, material =>
    if index < (s.m_objectMaterials.length : Int) ∧ bFound = false then
      match s.m_objectMaterials[index.toNat]? with
      | none => Outcome.outOfBounds
      | some m =>
        if m.tag = tag then FindMaterial.loop s tag fuel index true (copyMaterial m material)
        else FindMaterial.loop s tag fuel (index + 1) bFound material
    else Outcome.ok material

/-- `FindMaterial(tag, material)`: the returned `bool` and the out-parameter after the
call. The function ends with `return(true)` whatever `bFound` is. -/
def FindMaterial (s : SceneManager K) (tag : String) (material : OBJECT_MATERIAL K) :
    Outcome (Bool × OBJECT_MATERIAL K) :=
  if s.m_objectMaterials.length = 0 then Outcome.ok (false, material)
  else
    match FindMaterial.loop s tag (s.m_objectMaterials.length + 1) 0 false material with
    | Outcome.ok m => Outcome.ok (true, m)
    | Outcome.outOfBounds => Outcome.outOfBounds
    | Outcome.outOfFuel => Outcome.outOfFuel

/-- A material list in which the tag "wood" is defined twice, with different
properties, followed by one "metal" material. -/
def exampleMaterials : SceneManager ℚ :=
  { m_pShaderManager := none,
    m_textureIDs := fun _ => { tag := "/0", ID := toUInt32 (-1) },
    m_loadedTextures := 0,
    m_objectMaterials :=
      [ { ambientColor := { x := 1, y := 2, z := 3 }, ambientStrength := 4,
          diffuseColor := { x := 5, y := 6, z := 7 },
          specularColor := { x := 8, y := 9, z := 10 }, shininess := 11, tag := "wood" },
        { ambientColor := { x := 21, y := 22, z := 23 }, ambientStrength := 24,
          diffuseColor := { x := 25, y := 26, z := 27 },
          specularColor := { x := 28, y := 29, z := 30 }, shininess := 31, tag := "wood" },
        { ambientColor := { x := 41, y := 42, z := 43 }, ambientStrength := 44,
          diffuseColor := { x := 45, y := 46, z := 47 },
          specularColor := { x := 48, y := 49, z := 50 }, shininess := 51, tag := "metal" } ] }

/-- Contents of an out-parameter before a call of `FindMaterial`. -/
def blankMaterial : OBJECT_MATERIAL ℚ :=
  { ambientColor := { x := 0, y := 0, z := 0 }, ambientStrength := 0,
    diffuseColor := { x := 0, y := 0, z := 0 },
    specularColor := { x := 0, y := 0, z := 0 }, shininess := 0, tag := "" }

end SceneManager

/-! ## GLM (external library) and the transform pipeline -/

/-- The functions of the C math library that GLM calls, and the constant pi. -/
structure FloatMath (K : Type) where
  cos : K → K
  sin : K → K
  sqrt : K → K
  pi : K

namespace glm

variable {K : Type} [Field K]

/-- `glm::radians(degrees)`: degrees times pi/180. -/
def radians (fm : FloatMath K) (degrees : K) : K :=
  degrees * (fm.pi / 180)

/-- `glm::inversesqrt(x)`: `1 / sqrt(x)`. -/
def inversesqrt (fm : FloatMath K) (x : K) : K :=
  1 / fm.sqrt x

/-- `glm::dot` on `vec3`. -/
def dot (a b : Vec3 K) : K :=
  a.x * b.x + a.y * b.y + a.z * b.z

/-- `glm::normalize(v)`: `v * inversesqrt(dot(v, v))`. -/
def normalize (fm : FloatMath K) (v : Vec3 K) : Vec3 K :=
  { x := v.x * inversesqrt fm (dot v v),
    y := v.y * inversesqrt fm (dot v v),
    z := v.z * inversesqrt fm (dot v v) }

/-- `glm::scale(v)` (from `glm/gtx/transform.hpp`): the identity with its first three
diagonal entries scaled. Entry `(r, c)` below is row `r`, column `c` of the matrix. -/
def scale (v : Vec3 K) : Matrix (Fin 4) (Fin 4) K :=
  !![v.x, 0, 0, 0;
     0, v.y, 0, 0;
     0, 0, v.z, 0;
     0, 0, 0, 1]

/-- `glm::translate(v)`: the identity with `v` in its last column. -/
def translate (v : Vec3 K) : Matrix (Fin 4) (Fin 4) K :=
  !![1, 0, 0, v.x;
     0, 1, 0, v.y;
     0, 0, 1, v.z;
     0, 0, 0, 1]

/-- `glm::rotate(angle, v)`: GLM computes `c = cos(angle)`, `s = sin(angle)`,
`axis = normalize(v)`, `temp = (1 - c) * axis`, fills `Rotate[col][row]` and multiplies
the identity by it. Row `r`, column `c` below is GLM's `Rotate[c][r]`. -/
def rotate (fm : FloatMath K) (angle : K) (v : Vec3 K) : Matrix (Fin 4) (Fin 4) K :=
  let c := fm.cos angle
  let s := fm.sin angle
  let axis := normalize fm v
  let temp : Vec3 K := { x := (1 - c) * axis.x, y := (1 - c) * axis.y, z := (1 - c) * axis.z }
  !![c + temp.x * axis.x, temp.y * axis.x - s * axis.z, temp.z * axis.x + s * axis.y, 0;
     temp.x * axis.y + s * axis.z, c + temp.y * axis.y, temp.z * axis.y - s * axis.x, 0;
     temp.x * axis.z - s * axis.y, temp.y * axis.z + s * axis.x, c + temp.z * axis.z, 0;
     0, 0, 0, 1]

end glm

namespace SceneManager

variable {K : Type} [Field K]

/-- The local `modelView` of `SetTransformations`. -/
def modelView (fm : FloatMath K) (scaleXYZ : Vec3 K) (XrotationDegrees : K)
    (YrotationDegrees : K) (ZrotationDegrees : K) (positionXYZ : Vec3 K) :
    Matrix (Fin 4) (Fin 4) K :=
  let scale := glm.scale scaleXYZ
  let rotationX := glm.rotate fm (glm.radians fm XrotationDegrees) { x := 1, y := 0, z := 0 }
  let rotationY := glm.rotate fm (glm.radians fm YrotationDegrees) { x := 0, y := 1, z := 0 }
  let rotationZ := glm.rotate fm (glm.radians fm ZrotationDegrees) { x := 0, y := 0, z := 1 }
  let translation := glm.translate positionXYZ
  translation * rotationX * rotationY * rotationZ * scale

/-- `SetTransformations(scaleXYZ, Xdeg, Ydeg, Zdeg, positionXYZ)`: the matrix is pushed
to the uniform `"model"` when the shader manager pointer is not `NULL`. -/
def SetTransformations (fm : FloatMath K) (s : SceneManager K) (scaleXYZ : Vec3 K)
    (XrotationDegrees : K) (YrotationDegrees : K) (ZrotationDegrees : K)
    (positionXYZ : Vec3 K) : SceneManager K :=
  match s.m_pShaderManager with
  | some sh =>
    { s with m_pShaderManager := some (sh.push g_ModelName (UniformValue.mat4
        (modelView fm scaleXYZ XrotationDegrees YrotationDegrees ZrotationDegrees
          positionXYZ))) }
  | none => s

end SceneManager

/-! ## Shader state pushes, scene setup and the render pass -/

/-- Sequencing of two program steps: the second runs on the result of the first, a
fault of the first is the result. -/
def Outcome.bind {α β : Type} (x : Outcome α) (f : α → Outcome β) : Outcome β :=
  match x with
  | Outcome.ok a => f a
  | Outcome.outOfBounds => Outcome.outOfBounds
  | Outcome.outOfFuel => Outcome.outOfFuel

/-- Conversion of a `bool` argument to the `int` that `setIntValue` receives. -/
def boolToInt (b : Bool) : Int :=
  if b then 1 else 0

/-- The primitive meshes of the mesh library (`ShapeMeshes`, external). -/
inductive MeshKind where
  | box
  | cylinder
  | torus
  | sphere
  | cone
  | plane
  deriving DecidableEq, Repr

namespace SceneManager

variable {K : Type}

/-- `SetShaderColor(r, g, b, a)`. -/
def SetShaderColor (s : SceneManager K) (redColorValue : K) (greenColorValue : K)
    (blueColorValue : K) (alphaValue : K) : SceneManager K :=
  match s.m_pShaderManager with
  | some sh =>
    { s with m_pShaderManager := some ((sh.push g_UseTextureName
        (UniformValue.int (boolToInt false))).push g_ColorValueName
        (UniformValue.vec4 redColorValue greenColorValue blueColorValue alphaValue)) }
  | none => s

/-- `SetShaderTexture(textureTag)`: with a non-`NULL` shader manager, pushes the
texture-enable flag and then the slot that `FindTextureSlot` returns. -/
def SetShaderTexture (s : SceneManager K) (textureTag : String) : Outcome (SceneManager K) :=
  match s.m_pShaderManager with
  | some sh =>
    let sh1 := sh.push g_UseTextureName (UniformValue.int (boolToInt true))
    (FindTextureSlot s textureTag).bind fun textureID =>
      Outcome.ok { s with m_pShaderManager := some (sh1.push g_TextureValueName
        (UniformValue.sampler2D textureID)) }
  | none => Outcome.ok s

/-- `SetTextureUVScale(u, v)`. -/
def SetTextureUVScale (s : SceneManager K) (u : K) (v : K) : SceneManager K :=
  match s.m_pShaderManager with
  | some sh => { s with m_pShaderManager := some (sh.push "UVscale" (UniformValue.vec2 u v)) }
  | none => s

/-- `SetShaderMaterial(materialTag)`. `uninit` is the content of the local
`OBJECT_MATERIAL material` before `FindMaterial` is called on it. The five pushes go
through `m_pShaderManager` without a `NULL` test: a `NULL` pointer there is an invalid
memory access, reported as `Outcome.outOfBounds`. -/
def SetShaderMaterial (uninit : OBJECT_MATERIAL K) (s : SceneManager K)
    (materialTag : String) : Outcome (SceneManager K) :=
  if s.m_objectMaterials.length > 0 then
    (FindMaterial s materialTag uninit).bind fun (bReturn, material) =>
      if bReturn = true then
        match s.m_pShaderManager with
        | some sh =>
          Outcome.ok { s with m_pShaderManager := some (((((sh.push
              "material.ambientColor" (UniformValue.vec3 material.ambientColor)).push
              "material.ambientStrength" (UniformValue.float material.ambientStrength)).push
              "material.diffuseColor" (UniformValue.vec3 material.diffuseColor)).push
              "material.specularColor" (UniformValue.vec3 material.specularColor)).push
              "material.shininess" (UniformValue.float material.shininess)) }
        | none => Outcome.outOfBounds
      else Outcome.ok s
  else Outcome.ok s

/-- `LoadSceneTextures()`: five `CreateGLTexture` calls, whose results only choose the
messages printed, then `BindGLTextures()`. -/
def LoadSceneTextures (stbi_load : String → Option STBImage) (s : SceneManager K)
    (gl : GLContext) : Outcome (SceneManager K × GLContext) :=
  (CreateGLTexture stbi_load s gl "debug\\textures\\wood.jpg" "wood").bind
    fun (_, s1, gl1) =>
  (CreateGLTexture stbi_load s1 gl1 "debug\\textures\\ceramic.jpg" "ceramic").bind
    fun (_, s2, gl2) =>
  (CreateGLTexture stbi_load s2 gl2 "debug\\textures\\fabric.jpg" "fabric").bind
    fun (_, s3, gl3) =>
  (CreateGLTexture stbi_load s3 gl3 "debug\\textures\\glass.jpg" "glass").bind
    fun (_, s4, gl4) =>
  (CreateGLTexture stbi_load s4 gl4 "debug\\textures\\wall.jpg" "wall").bind
    fun (_, s5, gl5) =>
  (BindGLTextures s5 gl5).bind fun gl6 => Outcome.ok (s5, gl6)

/-- The number of `true` values among the results of the `CreateGLTexture` calls. -/
def countLoaded (results : List Bool) : Int :=
  ((results.filter (fun b => b)).length : Int)

end SceneManager

namespace SceneManager

variable {K : Type} [Field K]

/-- `DefineObjectMaterials()`: five `push_back` calls, in this order. The decimal
literals of the source are taken at their exact decimal value. -/
def DefineObjectMaterials (s : SceneManager K) : SceneManager K :=
  let woodMaterial : OBJECT_MATERIAL K :=
    { ambientColor := { x := 0.3, y := 0.25, z := 0.2 },
      ambientStrength := 0.4,
      diffuseColor := { x := 0.5, y := 0.4, z := 0.3 },
      specularColor := { x := 0.2, y := 0.2, z := 0.2 },
      shininess := 10.0,
      tag := "wood" }
  let creamCeramic : OBJECT_MATERIAL K :=
    { ambientColor := { x := 0.95, y := 0.92, z := 0.85 },
      ambientStrength := 0.4,
      diffuseColor := { x := 0.96, y := 0.93, z := 0.86 },
      specularColor := { x := 0.9, y := 0.9, z := 0.88 },
      shininess := 96.0,
      tag := "ceramic" }
  let fabricMaterial : OBJECT_MATERIAL K :=
    { ambientColor := { x := 0.4, y := 0.2, z := 0.1 },
      ambientStrength := 0.5,
      diffuseColor := { x := 0.6, y := 0.4, z := 0.3 },
      specularColor := { x := 0.1, y := 0.1, z := 0.1 },
      shininess := 5.0,
      tag := "fabric" }
  let metalMaterial : OBJECT_MATERIAL K :=
    { ambientColor := { x := 0.2, y := 0.2, z := 0.2 },
      ambientStrength := 0.3,
      diffuseColor := { x := 0.5, y := 0.5, z := 0.5 },
      specularColor := { x := 0.8, y := 0.8, z := 0.8 },
      shininess := 128.0,
      tag := "metal" }
  let glassMaterial : OBJECT_MATERIAL K :=
    { ambientColor := { x := 0.8, y := 0.8, z := 0.8 },
      ambientStrength := 0.5,
      diffuseColor := { x := 0.9, y := 0.9, z := 0.9 },
      specularColor := { x := 1.0, y := 1.0, z := 1.0 },
      shininess := 128.0,
      tag := "glass" }
  { s with m_objectMaterials := s.m_objectMaterials ++
      [woodMaterial, creamCeramic, fabricMaterial, metalMaterial, glassMaterial] }

end SceneManager

/-- One statement of the body of `RenderScene`: an assignment to one of its two
vector locals, a call of a `SceneManager` method, or a draw call on the mesh library. -/
inductive SceneCall (K : Type) where
  | assignScale (v : Vec3 K)
  | assignPosition (v : Vec3 K)
  | SetTransformations (XrotationDegrees : K) (YrotationDegrees : K) (ZrotationDegrees : K)
  | SetShaderColor (r : K) (g : K) (b : K) (a : K)
  | SetShaderTexture (textureTag : String)
  | SetTextureUVScale (u : K) (v : K)
  | SetShaderMaterial (materialTag : String)
  | Draw (mesh : MeshKind)

/-- State of a run of `RenderScene`: the scene manager, the locals `scaleXYZ` and
`positionXYZ`, and the draw calls issued so far (oldest first). -/
structure RenderState (K : Type) where
  scene : SceneManager K
  scaleXYZ : Vec3 K
  positionXYZ : Vec3 K
  drawn : List MeshKind

namespace SceneManager

variable {K : Type} [Field K]

/-- Effect of one statement of `RenderScene`. -/
def runCall (fm : FloatMath K) (uninit : OBJECT_MATERIAL K) (c : SceneCall K)
    (r : RenderState K) : Outcome (RenderState K) :=
  match c with
  | SceneCall.assignScale v => Outcome.ok { r with scaleXYZ := v }
  | SceneCall.assignPosition v => Outcome.ok { r with positionXYZ := v }
  | SceneCall.SetTransformations x y z =>
    Outcome.ok { r with scene := SetTransformations fm r.scene r.scaleXYZ x y z r.positionXYZ }
  | SceneCall.SetShaderColor red green blue alpha =>
    Outcome.ok { r with scene := SetShaderColor r.scene red green blue alpha }
  | SceneCall.SetShaderTexture textureTag =>
    (SetShaderTexture r.scene textureTag).bind fun s1 => Outcome.ok { r with scene := s1 }
  | SceneCall.SetTextureUVScale u v =>
    Outcome.ok { r with scene := SetTextureUVScale r.scene u v }
  | SceneCall.SetShaderMaterial materialTag =>
    (SetShaderMaterial uninit r.scene materialTag).bind fun s1 =>
      Outcome.ok { r with scene := s1 }
  | SceneCall.Draw mesh => Outcome.ok { r with drawn := r.drawn ++ [mesh] }

/-- The statements in the given order, each on the result of the one before. -/
def runCalls (fm : FloatMath K) (uninit : OBJECT_MATERIAL K) :
    List (SceneCall K) → RenderState K → Outcome (RenderState K)
  | [], r => Outcome.ok r
  | c :: cs, r => (runCall fm uninit c r).bind (runCalls fm uninit cs)

/-- The body of `RenderScene`, statement by statement in source order. -/
def RenderScene.calls : List (SceneCall K) :=
  -- table legs
    SceneCall.assignScale { x := 0.2, y := 2.0, z := 0.2 } ::
    SceneCall.assignPosition { x := -2.0, y := 0.0, z := -2.0 } ::
    SceneCall.SetTransformations 0.0 0.0 0.0 ::
    SceneCall.SetShaderTexture "wood" ::
    SceneCall.SetTextureUVScale 3.0 3.0 ::
    SceneCall.SetShaderMaterial "wood" ::
    SceneCall.Draw MeshKind.box ::
    SceneCall.assignPosition { x := 2.0, y := 0.0, z := -2.0 } ::
    SceneCall.SetTransformations 0.0 0.0 0.0 ::
    SceneCall.SetShaderTexture "wood" ::
    SceneCall.SetTextureUVScale 3.0 3.0 ::
    SceneCall.SetShaderMaterial "wood" ::
    SceneCall.Draw MeshKind.box ::
    SceneCall.assignPosition { x := -2.0, y := 0.0, z := 2.0 } ::
    SceneCall.SetTransformations 0.0 0.0 0.0 ::
    SceneCall.SetShaderTexture "wood" ::
    SceneCall.SetTextureUVScale 3.0 3.0 ::
    SceneCall.SetShaderMaterial "wood" ::
    SceneCall.Draw MeshKind.box ::
    SceneCall.assignPosition { x := 2.0, y := 0.0, z := 2.0 } ::
    SceneCall.SetTransformations 0.0 0.0 0.0 ::
    SceneCall.SetShaderTexture "wood" ::
    SceneCall.SetTextureUVScale 3.0 3.0 ::
    SceneCall.SetShaderMaterial "wood" ::
    SceneCall.Draw MeshKind.box ::
    -- table top
    SceneCall.assignScale { x := 5.5, y := 0.2, z := 4.5 } ::
    SceneCall.assignPosition { x := 0.0, y := 1.0, z := 0.0 } ::
    SceneCall.SetTransformations 0.0 0.0 0.0 ::
    SceneCall.SetShaderTexture "wood" ::
    SceneCall.SetTextureUVScale 3.0 3.0 ::
    SceneCall.SetShaderMaterial "wood" ::
    SceneCall.Draw MeshKind.box ::
    -- stool 1 and its seat
    SceneCall.assignScale { x := 0.8, y := 1.2, z := 0.8 } ::
    SceneCall.assignPosition { x := 1.5, y := -0.4, z := 3.5 } ::
    SceneCall.SetTransformations 0.0 0.0 0.0 ::
    SceneCall.SetShaderTexture "fabric" ::
    SceneCall.SetTextureUVScale 3.0 3.0 ::
    SceneCall.SetShaderMaterial "fabric" ::
    SceneCall.Draw MeshKind.box ::
    SceneCall.assignScale { x := 0.9, y := 0.15, z := 0.9 } ::
    SceneCall.assignPosition { x := 1.5, y := 0.3, z := 3.5 } ::
    SceneCall.SetTransformations 0.0 0.0 0.0 ::
    SceneCall.SetShaderTexture "fabric" ::
    SceneCall.SetTextureUVScale 3.0 3.0 ::
    SceneCall.SetShaderMaterial "fabric" ::
    SceneCall.Draw MeshKind.box ::
    -- stool 2 and its seat
    SceneCall.assignScale { x := 0.8, y := 1.2, z := 0.8 } ::
    SceneCall.assignPosition { x := -1.5, y := -0.4, z := 3.5 } ::
    SceneCall.SetTransformations 0.0 0.0 0.0 ::
    SceneCall.SetShaderTexture "fabric" ::
    SceneCall.SetTextureUVScale 3.0 3.0 ::
    SceneCall.SetShaderMaterial "fabric" ::
    SceneCall.Draw MeshKind.box ::
    SceneCall.assignScale { x := 0.9, y := 0.15, z := 0.9 } ::
    SceneCall.assignPosition { x := -1.5, y := 0.3, z := 3.5 } ::
    SceneCall.SetTransformations 0.0 0.0 0.0 ::
    SceneCall.SetShaderTexture "fabric" ::
    SceneCall.SetTextureUVScale 3.0 3.0 ::
    SceneCall.SetShaderMaterial "fabric" ::
    SceneCall.Draw MeshKind.box ::
    -- cup: base, body, handle
    SceneCall.assignScale { x := 0.3, y := 0.3, z := 0.3 } ::
    SceneCall.assignPosition { x := 0.0, y := 1.15, z := 0.0 } ::
    SceneCall.SetTransformations 90.0 0.0 0.0 ::
    SceneCall.SetShaderTexture "ceramic" ::
    SceneCall.SetTextureUVScale 3.0 3.0 ::
    SceneCall.SetShaderMaterial "ceramic" ::
    SceneCall.Draw MeshKind.torus ::
    SceneCall.assignScale { x := 0.35, y := 0.5, z := 0.35 } ::
    SceneCall.assignPosition { x := 0.0, y := 1.15, z := 0.0 } ::
    SceneCall.SetTransformations 0.0 0.0 0.0 ::
    SceneCall.SetShaderTexture "ceramic" ::
    SceneCall.SetTextureUVScale 3.0 3.0 ::
    SceneCall.SetShaderMaterial "ceramic" ::
    SceneCall.Draw MeshKind.cylinder ::
    SceneCall.assignScale { x := 0.3, y := 0.2, z := 0.3 } ::
    SceneCall.assignPosition { x := 0.2, y := 1.35, z := 0.0 } ::
    SceneCall.SetTransformations 0.0 0.0 0.0 ::
    SceneCall.SetShaderTexture "ceramic" ::
    SceneCall.SetTextureUVScale 3.0 3.0 ::
    SceneCall.SetShaderMaterial "ceramic" ::
    SceneCall.Draw MeshKind.torus ::
    -- chandelier: chain, light
    SceneCall.assignScale { x := 0.05, y := 1.0, z := 0.1 } ::
    SceneCall.assignPosition { x := 0.0, y := 7.5, z := 0.0 } ::
    SceneCall.SetTransformations 0.0 0.0 0.0 ::
    SceneCall.SetShaderTexture "glass" ::
    SceneCall.SetTextureUVScale 3.0 3.0 ::
    SceneCall.SetShaderMaterial "ceramic" ::
    SceneCall.Draw MeshKind.cylinder ::
    SceneCall.assignScale { x := 1.0, y := 0.8, z := 1.0 } ::
    SceneCall.assignPosition { x := 0.0, y := 7.0, z := 0.0 } ::
    SceneCall.SetTransformations 0.0 0.0 0.0 ::
    SceneCall.SetShaderTexture "wood" ::
    SceneCall.SetTextureUVScale 3.0 3.0 ::
    SceneCall.SetShaderMaterial "ceramic" ::
    SceneCall.Draw MeshKind.cone ::
    -- floor
    SceneCall.SetShaderColor 0.96 0.93 0.86 1.0 ::
    SceneCall.assignScale { x := 20.0, y := 0.1, z := 20.0 } ::
    SceneCall.assignPosition { x := 0.0, y := -0.1, z := 0.0 } ::
    SceneCall.SetTransformations 180.0 0.0 0.0 ::
    SceneCall.SetShaderTexture "wall" ::
    SceneCall.SetTextureUVScale 3.0 3.0 ::
    SceneCall.SetShaderMaterial "wood" ::
    SceneCall.Draw MeshKind.box ::
    -- back wall
    SceneCall.SetShaderColor 0.96 0.93 0.86 1.0 ::
    SceneCall.assignScale { x := 20.0, y := 10.0, z := 0.1 } ::
    SceneCall.assignPosition { x := 0.0, y := 5.0, z := -10.0 } ::
    SceneCall.SetTransformations 0.0 180.0 0.0 ::
    SceneCall.SetShaderTexture "wall" ::
    SceneCall.SetTextureUVScale 3.0 3.0 ::
    SceneCall.SetShaderMaterial "wood" ::
    SceneCall.Draw MeshKind.box ::
    -- left wall
    SceneCall.assignScale { x := 0.1, y := 10.0, z := 20.0 } ::
    SceneCall.assignPosition { x := -10.0, y := 5.0, z := 0.0 } ::
    SceneCall.SetTransformations 0.0 0.0 180.0 ::
    SceneCall.SetShaderTexture "wall" ::
    SceneCall.SetTextureUVScale 3.0 3.0 ::
    SceneCall.SetShaderMaterial "wood" ::
    SceneCall.Draw MeshKind.box ::
    -- right wall
    SceneCall.assignPosition { x := 10.0, y := 5.0, z := 0.0 } ::
    SceneCall.SetTransformations 0.0 0.0 180.0 ::
    SceneCall.SetShaderTexture "wall" ::
    SceneCall.SetTextureUVScale 3.0 3.0 ::
    SceneCall.SetShaderMaterial "wood" ::
    SceneCall.Draw MeshKind.box :: []

/-- `RenderScene()`: the body run from the state in which the two vector locals hold
`scale0` and `position0` (their contents before the first assignment) and no draw call
has been issued. -/
def RenderScene (fm : FloatMath K) (uninit : OBJECT_MATERIAL K) (scale0 : Vec3 K)
    (position0 : Vec3 K) (s : SceneManager K) : Outcome (RenderState K) :=
  runCalls fm uninit RenderScene.calls
    { scene := s, scaleXYZ := scale0, positionXYZ := position0, drawn := [] }

/-- The texture tags that `LoadSceneTextures` registers, in registration order. -/
def sceneTextureTags : List String :=
  ["wood", "ceramic", "fabric", "glass", "wall"]

/-- An image decoder for which each of the five scene texture files decodes, with 3
colour channels (4 for the glass texture); no other file decodes. -/
def sceneDecoder (filename : String) : Option STBImage :=
  if filename = "debug\\textures\\glass.jpg" then
    some { width := 4, height := 4, colorChannels := 4 }
  else if filename = "debug\\textures\\wood.jpg" ∨ filename = "debug\\textures\\ceramic.jpg" ∨
      filename = "debug\\textures\\fabric.jpg" ∨ filename = "debug\\textures\\wall.jpg" then
    some { width := 4, height := 4, colorChannels := 3 }
  else none

/-- The file decodes to an image with 3 or with 4 colour channels: the condition under
which `CreateGLTexture` registers it. -/
def loadable (stbi_load : String → Option STBImage) (filename : String) : Prop :=
  ∃ image : STBImage, stbi_load filename = some image ∧
    (image.colorChannels = 3 ∨ image.colorChannels = 4)

/-- The registry holds exactly the five scene textures, in the order in which
`LoadSceneTextures` registers them. -/
def sceneTexturesLoaded {K : Type} (s : SceneManager K) : Prop :=
  s.m_loadedTextures = 5 ∧ (s.m_textureIDs 0).tag = "wood" ∧
    (s.m_textureIDs 1).tag = "ceramic" ∧ (s.m_textureIDs 2).tag = "fabric" ∧
    (s.m_textureIDs 3).tag = "glass" ∧ (s.m_textureIDs 4).tag = "wall"

end SceneManager

/-! ## Texture registry: lemmas -/

namespace SceneManager

variable {K : Type}

theorem textureAt_inBounds (s : SceneManager K) (index : Int) (h : 0 ≤ index ∧ index < 16) :
    textureAt s index = some (s.m_textureIDs ⟨index.toNat, by omega⟩) := by
  simp [textureAt, h]

theorem textureAt_fin (s : SceneManager K) (i : Fin 16) :
    textureAt s (i.val : Int) = some (s.m_textureIDs i) := by
  have h : 0 ≤ (i.val : Int) ∧ (i.val : Int) < 16 := by omega
  rw [textureAt_inBounds s _ h]
  simp

theorem exists_first_carrier (s : SceneManager K) (tag : String) (i : Fin 16)
    (h : carries s tag i) :
    ∃ j : Fin 16, j ≤ i ∧ carries s tag j ∧ ∀ k : Fin 16, k < j → (s.m_textureIDs k).tag ≠ tag := by
  classical
  have hex : ∃ n : Nat, ∃ hn : n < 16, carries s tag ⟨n, hn⟩ := ⟨i.val, i.isLt, h⟩
  obtain ⟨hn, hc⟩ := Nat.find_spec hex
  refine ⟨⟨Nat.find hex, hn⟩, ?_, hc, ?_⟩
  · show Nat.find hex ≤ i.val
    exact Nat.find_min' hex ⟨i.isLt, h⟩
  · intro k hk htag
    have hk2 : k.val < Nat.find hex := hk
    refine Nat.find_min hex hk2 ⟨k.isLt, ?_, htag⟩
    have := hc.1
    simp only at this ⊢
    omega

theorem FindTextureSlot_loop_done (s : SceneManager K) (tag : String) (fuel : Nat)
    (index slot : Int) :
    FindTextureSlot.loop s tag (fuel + 1) index true slot = Outcome.ok slot := by
  simp [FindTextureSlot.loop]

theorem FindTextureSlot_loop_found (s : SceneManager K) (tag : String) (j : Fin 16)
    (hj : (j.val : Int) < s.m_loadedTextures) (ht : (s.m_textureIDs j).tag = tag) :
    ∀ (fuel : Nat) (i : Fin 16) (slot : Int), i ≤ j →
      (∀ k : Fin 16, i ≤ k → k < j → (s.m_textureIDs k).tag ≠ tag) →
      j.val - i.val + 2 ≤ fuel →
      FindTextureSlot.loop s tag fuel (i.val : Int) false slot = Outcome.ok (j.val : Int) := by
  intro fuel
  induction fuel with
  | zero => intro i slot _ _ hf; omega
  | succ fuel ih =>
    intro i slot hij hne hf
    have hcond : (i.val : Int) < s.m_loadedTextures := by
      have : i.val ≤ j.val := hij
      omega
    rw [FindTextureSlot.loop]
    simp only [hcond, true_and, if_true, textureAt_fin]
    by_cases hi : (s.m_textureIDs i).tag = tag
    · have hEq : i = j := by
        rcases lt_or_eq_of_le hij with hlt | heq
        · exact absurd hi (hne i le_rfl hlt)
        · exact heq
      subst hEq
      simp only [hi, if_true]
      obtain ⟨f, rfl⟩ : ∃ f, fuel = f + 1 := ⟨fuel - 1, by omega⟩
      exact FindTextureSlot_loop_done s tag f _ _
    · have hlt : i < j := by
        rcases lt_or_eq_of_le hij with hlt | heq
        · exact hlt
        · exact absurd (heq ▸ ht) hi
      have hlt2 : i.val < j.val := hlt
      simp only [hi, if_false]
      have h16 : i.val + 1 < 16 := by have := j.isLt; omega
      have := ih ⟨i.val + 1, h16⟩ slot (by show i.val + 1 ≤ j.val; omega)
        (fun k hk hkj => hne k (by
          have : i.val + 1 ≤ k.val := hk
          show i.val ≤ k.val
          omega) hkj) (by simp only []; omega)
      simpa using this

theorem FindTextureSlot_loop_absent (s : SceneManager K) (tag : String)
    (hcap : s.m_loadedTextures ≤ 16)
    (hno : ∀ k : Fin 16, ¬ carries s tag k) :
    ∀ (fuel i : Nat) (slot : Int),
      (s.m_loadedTextures - (i : Int)).toNat + 1 ≤ fuel →
      FindTextureSlot.loop s tag fuel (i : Int) false slot = Outcome.ok slot := by
  intro fuel
  induction fuel with
  | zero => intro i slot hf; omega
  | succ fuel ih =>
    intro i slot hf
    rw [FindTextureSlot.loop]
    by_cases hcond : (i : Int) < s.m_loadedTextures
    · have h16 : i < 16 := by omega
      have hread := textureAt_fin s ⟨i, h16⟩
      simp only at hread
      simp only [hcond, true_and, if_true, hread]
      have hne : ¬ (s.m_textureIDs ⟨i, h16⟩).tag = tag := fun h => hno ⟨i, h16⟩ ⟨hcond, h⟩
      simp only [hne, if_false]
      have := ih (i + 1) slot (by push_cast; omega)
      simpa using this
    · simp [hcond]

/-- With a registered carrier of `tag`, `FindTextureSlot` returns the first one. -/
theorem FindTextureSlot_of_first (s : SceneManager K) (tag : String) (j : Fin 16)
    (hj : carries s tag j) (hmin : ∀ k : Fin 16, k < j → (s.m_textureIDs k).tag ≠ tag) :
    FindTextureSlot s tag = Outcome.ok (j.val : Int) := by
  have h0 : (0 : Fin 16) ≤ j := Fin.zero_le j
  have := FindTextureSlot_loop_found s tag j hj.1 hj.2 (s.m_loadedTextures.toNat + 1) 0 (-1) h0
    (fun k _ hk => hmin k hk) (by have := hj.1; simp only [Fin.val_zero]; omega)
  simpa [FindTextureSlot] using this

/-- Without a registered carrier of `tag`, `FindTextureSlot` returns `-1`. -/
theorem FindTextureSlot_of_absent (s : SceneManager K) (tag : String)
    (hcap : s.m_loadedTextures ≤ 16) (hno : ∀ k : Fin 16, ¬ carries s tag k) :
    FindTextureSlot s tag = Outcome.ok (-1) := by
  have := FindTextureSlot_loop_absent s tag hcap hno (s.m_loadedTextures.toNat + 1) 0 (-1)
    (by simp)
  simpa [FindTextureSlot] using this

end SceneManager

namespace SceneManager

variable {K : Type}

theorem FindTextureID_loop_done (s : SceneManager K) (tag : String) (fuel : Nat)
    (index textureID : Int) :
    FindTextureID.loop s tag (fuel + 1) index true textureID = Outcome.ok textureID := by
  simp [FindTextureID.loop]

theorem FindTextureID_loop_found (s : SceneManager K) (tag : String) (j : Fin 16)
    (hj : (j.val : Int) < s.m_loadedTextures) (ht : (s.m_textureIDs j).tag = tag) :
    ∀ (fuel : Nat) (i : Fin 16) (textureID : Int), i ≤ j →
      (∀ k : Fin 16, i ≤ k → k < j → (s.m_textureIDs k).tag ≠ tag) →
      j.val - i.val + 2 ≤ fuel →
      FindTextureID.loop s tag fuel (i.val : Int) false textureID
        = Outcome.ok (toInt32 (s.m_textureIDs j).ID) := by
  intro fuel
  induction fuel with
  | zero => intro i textureID _ _ hf; omega
  | succ fuel ih =>
    intro i textureID hij hne hf
    have hcond : (i.val : Int) < s.m_loadedTextures := by
      have : i.val ≤ j.val := hij
      omega
    rw [FindTextureID.loop]
    simp only [hcond, true_and, if_true, textureAt_fin]
    by_cases hi : (s.m_textureIDs i).tag = tag
    · have hEq : i = j := by
        rcases lt_or_eq_of_le hij with hlt | heq
        · exact absurd hi (hne i le_rfl hlt)
        · exact heq
      subst hEq
      simp only [hi, if_true]
      obtain ⟨f, rfl⟩ : ∃ f, fuel = f + 1 := ⟨fuel - 1, by omega⟩
      exact FindTextureID_loop_done s tag f _ _
    · have hlt : i < j := by
        rcases lt_or_eq_of_le hij with hlt | heq
        · exact hlt
        · exact absurd (heq ▸ ht) hi
      have hlt2 : i.val < j.val := hlt
      simp only [hi, if_false]
      have h16 : i.val + 1 < 16 := by have := j.isLt; omega
      have := ih ⟨i.val + 1, h16⟩ textureID (by show i.val + 1 ≤ j.val; omega)
        (fun k hk hkj => hne k (by
          have : i.val + 1 ≤ k.val := hk
          show i.val ≤ k.val
          omega) hkj) (by simp only []; omega)
      simpa using this

theorem FindTextureID_loop_absent (s : SceneManager K) (tag : String)
    (hcap : s.m_loadedTextures ≤ 16)
    (hno : ∀ k : Fin 16, ¬ carries s tag k) :
    ∀ (fuel i : Nat) (textureID : Int),
      (s.m_loadedTextures - (i : Int)).toNat + 1 ≤ fuel →
      FindTextureID.loop s tag fuel (i : Int) false textureID = Outcome.ok textureID := by
  intro fuel
  induction fuel with
  | zero => intro i textureID hf; omega
  | succ fuel ih =>
    intro i textureID hf
    rw [FindTextureID.loop]
    by_cases hcond : (i : Int) < s.m_loadedTextures
    · have h16 : i < 16 := by omega
      have hread := textureAt_fin s ⟨i, h16⟩
      simp only at hread
      simp only [hcond, true_and, if_true, hread]
      have hne : ¬ (s.m_textureIDs ⟨i, h16⟩).tag = tag := fun h => hno ⟨i, h16⟩ ⟨hcond, h⟩
      simp only [hne, if_false]
      have := ih (i + 1) textureID (by push_cast; omega)
      simpa using this
    · simp [hcond]

/-- With a registered carrier of `tag`, `FindTextureID` returns the ID of the first one. -/
theorem FindTextureID_of_first (s : SceneManager K) (tag : String) (j : Fin 16)
    (hj : carries s tag j) (hmin : ∀ k : Fin 16, k < j → (s.m_textureIDs k).tag ≠ tag) :
    FindTextureID s tag = Outcome.ok (toInt32 (s.m_textureIDs j).ID) := by
  have h0 : (0 : Fin 16) ≤ j := Fin.zero_le j
  have := FindTextureID_loop_found s tag j hj.1 hj.2 (s.m_loadedTextures.toNat + 1) 0 (-1) h0
    (fun k _ hk => hmin k hk) (by have := hj.1; simp only [Fin.val_zero]; omega)
  simpa [FindTextureID] using this

/-- Without a registered carrier of `tag`, `FindTextureID` returns `-1`. -/
theorem FindTextureID_of_absent (s : SceneManager K) (tag : String)
    (hcap : s.m_loadedTextures ≤ 16) (hno : ∀ k : Fin 16, ¬ carries s tag k) :
    FindTextureID s tag = Outcome.ok (-1) := by
  have := FindTextureID_loop_absent s tag hcap hno (s.m_loadedTextures.toNat + 1) 0 (-1)
    (by simp)
  simpa [FindTextureID] using this

/-! ### `CreateGLTexture` -/

/-- The registry after a successful registration of `tag` with texture name `name`. -/
theorem setTextureAt_inBounds (s : SceneManager K) (index : Int) (e : TEXTURE_INFO)
    (h : 0 ≤ index ∧ index < 16) :
    setTextureAt s index e = some { s with
      m_textureIDs := Function.update s.m_textureIDs ⟨index.toNat, by omega⟩ e } := by
  simp [setTextureAt, h]

/-- A decodable image with 3 or 4 channels, registered below capacity: the call returns
true, writes `(tag, fresh name)` at index `m_loadedTextures` and increments the count. -/
theorem CreateGLTexture_success (stbi_load : String → Option STBImage) (s : SceneManager K)
    (gl : GLContext) (filename tag : String) (image : STBImage)
    (hload : stbi_load filename = some image)
    (hch : image.colorChannels = 3 ∨ image.colorChannels = 4)
    (hn : 0 ≤ s.m_loadedTextures ∧ s.m_loadedTextures < 16) :
    ∃ gl1 : GLContext, CreateGLTexture stbi_load s gl filename tag = Outcome.ok (true,
      { s with
        m_textureIDs := Function.update s.m_textureIDs ⟨s.m_loadedTextures.toNat, by omega⟩
          { tag := tag, ID := gl.freshName },
        m_loadedTextures := s.m_loadedTextures + 1 }, gl1) := by
  rcases hch with h3 | h4
  · simp [CreateGLTexture, hload, h3, GLContext.glGenTextures, setTextureAt_inBounds s _ _ hn]
  · simp [CreateGLTexture, hload, h4, GLContext.glGenTextures, setTextureAt_inBounds s _ _ hn]

/-- An undecodable file, or an image with a channel count other than 3 and 4: the call
returns false and the scene manager is the one it was. -/
theorem CreateGLTexture_failure (stbi_load : String → Option STBImage) (s : SceneManager K)
    (gl : GLContext) (filename tag : String)
    (h : stbi_load filename = none ∨ ∃ image, stbi_load filename = some image ∧
      image.colorChannels ≠ 3 ∧ image.colorChannels ≠ 4) :
    ∃ gl1 : GLContext, CreateGLTexture stbi_load s gl filename tag = Outcome.ok (false, s, gl1) := by
  rcases h with hnone | ⟨image, hload, h3, h4⟩
  · exact ⟨gl, by simp [CreateGLTexture, hnone]⟩
  · simp [CreateGLTexture, hload, h3, h4, GLContext.glGenTextures]

end SceneManager

namespace SceneManager

variable {K : Type}

/-- What the two lookups return, in terms of the registered carriers of the tag. -/
theorem FindTexture_cases (s : SceneManager K) (tag : String) (hcap : s.m_loadedTextures ≤ 16) :
    (∃ j : Fin 16, carries s tag j ∧ (∀ k : Fin 16, k < j → (s.m_textureIDs k).tag ≠ tag) ∧
        FindTextureSlot s tag = Outcome.ok (j.val : Int) ∧
        FindTextureID s tag = Outcome.ok (toInt32 (s.m_textureIDs j).ID)) ∨
      ((∀ k : Fin 16, ¬ carries s tag k) ∧ FindTextureSlot s tag = Outcome.ok (-1) ∧
        FindTextureID s tag = Outcome.ok (-1)) := by
  by_cases h : ∃ i : Fin 16, carries s tag i
  · obtain ⟨i, hi⟩ := h
    obtain ⟨j, _, hj, hmin⟩ := exists_first_carrier s tag i hi
    exact Or.inl ⟨j, hj, hmin, FindTextureSlot_of_first s tag j hj hmin,
      FindTextureID_of_first s tag j hj hmin⟩
  · have hno : ∀ k : Fin 16, ¬ carries s tag k := fun k hk => h ⟨k, hk⟩
    exact Or.inr ⟨hno, FindTextureSlot_of_absent s tag hcap hno,
      FindTextureID_of_absent s tag hcap hno⟩

/-- The first carrier of a tag stays the first carrier when an entry is written at
index `m_loadedTextures` and the count is incremented. -/
theorem first_carrier_after_append (s : SceneManager K) (t : String) (j : Fin 16)
    (e : TEXTURE_INFO) (hn : 0 ≤ s.m_loadedTextures ∧ s.m_loadedTextures < 16)
    (hj : carries s t j) (hmin : ∀ k : Fin 16, k < j → (s.m_textureIDs k).tag ≠ t) :
    let s1 : SceneManager K := { s with
      m_textureIDs := Function.update s.m_textureIDs ⟨s.m_loadedTextures.toNat, by omega⟩ e,
      m_loadedTextures := s.m_loadedTextures + 1 }
    carries s1 t j ∧ (∀ k : Fin 16, k < j → (s1.m_textureIDs k).tag ≠ t) ∧
      s1.m_textureIDs j = s.m_textureIDs j := by
  intro s1
  have hjn : (j.val : Int) < s.m_loadedTextures := hj.1
  have hne : ∀ k : Fin 16, k ≤ j →
      k ≠ (⟨s.m_loadedTextures.toNat, by omega⟩ : Fin 16) := by
    intro k hk hEq
    have h1 : k.val = s.m_loadedTextures.toNat := congrArg Fin.val hEq
    have h2 : k.val ≤ j.val := hk
    omega
  have hsame : ∀ k : Fin 16, k ≤ j → s1.m_textureIDs k = s.m_textureIDs k := by
    intro k hk
    exact Function.update_noteq (hne k hk) _ _
  refine ⟨⟨?_, ?_⟩, ?_, hsame j le_rfl⟩
  · show (j.val : Int) < s.m_loadedTextures + 1
    omega
  · rw [hsame j le_rfl]; exact hj.2
  · intro k hk
    rw [hsame k (le_of_lt hk)]
    exact hmin k hk

/-- The successful registration, described entry by entry. -/
theorem CreateGLTexture_success_entries (stbi_load : String → Option STBImage)
    (s : SceneManager K) (gl : GLContext) (filename tag : String) (image : STBImage)
    (hload : stbi_load filename = some image)
    (hch : image.colorChannels = 3 ∨ image.colorChannels = 4)
    (hn : 0 ≤ s.m_loadedTextures ∧ s.m_loadedTextures < 16) :
    ∃ (s1 : SceneManager K) (gl1 : GLContext),
      CreateGLTexture stbi_load s gl filename tag = Outcome.ok (true, s1, gl1) ∧
      s1.m_loadedTextures = s.m_loadedTextures + 1 ∧
      (∀ k : Fin 16, (k.val : Int) ≠ s.m_loadedTextures →
        s1.m_textureIDs k = s.m_textureIDs k) ∧
      (∀ k : Fin 16, (k.val : Int) = s.m_loadedTextures →
        s1.m_textureIDs k = { tag := tag, ID := gl.freshName }) := by
  obtain ⟨gl1, e⟩ := CreateGLTexture_success stbi_load s gl filename tag image hload hch hn
  refine ⟨_, gl1, e, rfl, ?_, ?_⟩
  · intro k hk
    apply Function.update_noteq
    intro hEq
    have h1 : k.val = s.m_loadedTextures.toNat := congrArg Fin.val hEq
    omega
  · intro k hk
    have hEq : k = (⟨s.m_loadedTextures.toNat, by omega⟩ : Fin 16) := by
      apply Fin.ext
      show k.val = s.m_loadedTextures.toNat
      omega
    show Function.update s.m_textureIDs _ _ k = _
    rw [hEq]
    exact Function.update_same _ _ _

end SceneManager

/-! ## Texture registry: claims -/

namespace SceneManager

/-- C1: when some registered entry carries the tag, `FindTextureSlot(tag)` returns the
smallest registered index whose entry carries the tag (first match wins); and after
registering the tags "a", "b", "a" in that order into a freshly constructed registry,
`FindTextureSlot("a")` returns 0. -/
theorem FindTextureSlot_first_match_wins (K : Type) :
    (∀ (s : SceneManager K) (tag : String) (i : Fin 16), carries s tag i →
      ∃ j : Fin 16, FindTextureSlot s tag = Outcome.ok (j.val : Int) ∧ carries s tag j ∧
        ∀ k : Fin 16, carries s tag k → j ≤ k) ∧
    (∀ (stbi_load : String → Option STBImage) (p : Option (ShaderManager K)) (gl : GLContext)
        (f1 f2 f3 : String) (i1 i2 i3 : STBImage),
      stbi_load f1 = some i1 ∧ (i1.colorChannels = 3 ∨ i1.colorChannels = 4) →
      stbi_load f2 = some i2 ∧ (i2.colorChannels = 3 ∨ i2.colorChannels = 4) →
      stbi_load f3 = some i3 ∧ (i3.colorChannels = 3 ∨ i3.colorChannels = 4) →
      ∃ (s1 s2 s3 : SceneManager K) (gl1 gl2 gl3 : GLContext),
        CreateGLTexture stbi_load (construct p) gl f1 "a" = Outcome.ok (true, s1, gl1) ∧
        CreateGLTexture stbi_load s1 gl1 f2 "b" = Outcome.ok (true, s2, gl2) ∧
        CreateGLTexture stbi_load s2 gl2 f3 "a" = Outcome.ok (true, s3, gl3) ∧
        FindTextureSlot s3 "a" = Outcome.ok 0) := by
  constructor
  · intro s tag i hi
    obtain ⟨j, _, hj, hmin⟩ := exists_first_carrier s tag i hi
    refine ⟨j, FindTextureSlot_of_first s tag j hj hmin, hj, ?_⟩
    intro k hk
    by_contra hlt
    exact hmin k (lt_of_not_le hlt) hk.2
  · intro stbi_load p gl f1 f2 f3 i1 i2 i3 h1 h2 h3
    obtain ⟨s1, gl1, e1, n1, o1, w1⟩ := CreateGLTexture_success_entries stbi_load (construct p)
      gl f1 "a" i1 h1.1 h1.2 (by simp [construct])
    have m1 : s1.m_loadedTextures = 1 := by simpa [construct] using n1
    obtain ⟨s2, gl2, e2, n2, o2, _⟩ := CreateGLTexture_success_entries stbi_load s1
      gl1 f2 "b" i2 h2.1 h2.2 (by omega)
    have m2 : s2.m_loadedTextures = 2 := by omega
    obtain ⟨s3, gl3, e3, n3, o3, _⟩ := CreateGLTexture_success_entries stbi_load s2
      gl2 f3 "a" i3 h3.1 h3.2 (by omega)
    have m3 : s3.m_loadedTextures = 3 := by omega
    have t0 : (s3.m_textureIDs 0).tag = "a" := by
      rw [o3 0 (by simp [m2]), o2 0 (by simp [m1]), w1 0 (by simp [construct])]
    have hfind := FindTextureSlot_of_first s3 "a" 0 ⟨by simp [m3], t0⟩
      (fun k hk => absurd hk (Fin.not_lt_zero k))
    exact ⟨s1, s2, s3, gl1, gl2, gl3, e1, e2, e3, by simpa using hfind⟩

/-- C1, at the registry holding "a", "b", "a": entry 2 carries "a", and the lookup
returns slot 0. -/
theorem FindTextureSlot_first_match_wins_witness :
    carries exampleRegistry "a" 2 ∧
    (∃ j : Fin 16, FindTextureSlot exampleRegistry "a" = Outcome.ok (j.val : Int) ∧
      carries exampleRegistry "a" j ∧ ∀ k : Fin 16, carries exampleRegistry "a" k → j ≤ k) ∧
    (∃ (s1 s2 s3 : SceneManager ℚ) (gl1 gl2 gl3 : GLContext),
        CreateGLTexture exampleDecoder (construct none) emptyGL "rgb.jpg" "a"
          = Outcome.ok (true, s1, gl1) ∧
        CreateGLTexture exampleDecoder s1 gl1 "rgba.png" "b" = Outcome.ok (true, s2, gl2) ∧
        CreateGLTexture exampleDecoder s2 gl2 "rgb.jpg" "a" = Outcome.ok (true, s3, gl3) ∧
        FindTextureSlot s3 "a" = Outcome.ok 0) :=
  ⟨by decide,
    (FindTextureSlot_first_match_wins ℚ).1 exampleRegistry "a" 2 (by decide),
    (FindTextureSlot_first_match_wins ℚ).2 exampleDecoder none emptyGL "rgb.jpg" "rgba.png"
      "rgb.jpg" { width := 2, height := 2, colorChannels := 3 }
      { width := 2, height := 2, colorChannels := 4 }
      { width := 2, height := 2, colorChannels := 3 }
      ⟨by decide, by decide⟩ ⟨by decide, by decide⟩ ⟨by decide, by decide⟩⟩

end SceneManager

namespace SceneManager

/-- C2: in a registry holding `n < 16` textures none of which carries `tag`, loading a
file that decodes with 3 or with 4 colour channels makes `CreateGLTexture` return true,
and afterwards `FindTextureSlot(tag)` returns `n`. -/
theorem CreateGLTexture_then_FindTextureSlot (K : Type)
    (stbi_load : String → Option STBImage) (s : SceneManager K) (gl : GLContext)
    (filename tag : String) (image : STBImage)
    (hn : 0 ≤ s.m_loadedTextures ∧ s.m_loadedTextures < 16)
    (hnew : ∀ k : Fin 16, ¬ carries s tag k)
    (hload : stbi_load filename = some image)
    (hch : image.colorChannels = 3 ∨ image.colorChannels = 4) :
    ∃ (s1 : SceneManager K) (gl1 : GLContext),
      CreateGLTexture stbi_load s gl filename tag = Outcome.ok (true, s1, gl1) ∧
      FindTextureSlot s1 tag = Outcome.ok s.m_loadedTextures := by
  obtain ⟨s1, gl1, e, n1, o1, w1⟩ :=
    CreateGLTexture_success_entries stbi_load s gl filename tag image hload hch hn
  refine ⟨s1, gl1, e, ?_⟩
  have hlt : s.m_loadedTextures.toNat < 16 := by omega
  have hval : ((⟨s.m_loadedTextures.toNat, hlt⟩ : Fin 16).val : Int) = s.m_loadedTextures := by
    simp only []
    omega
  have hfind := FindTextureSlot_of_first s1 tag ⟨s.m_loadedTextures.toNat, hlt⟩
    ⟨by rw [hval, n1]; omega, by rw [w1 _ hval]⟩
    (by
      intro k hk htag
      have hk2 : k.val < s.m_loadedTextures.toNat := hk
      have hkn : (k.val : Int) < s.m_loadedTextures := by omega
      rw [o1 k (by omega)] at htag
      exact hnew k ⟨hkn, htag⟩)
  rw [hfind, hval]

/-- C2, at the registry holding "a", "b", "a": a 4-channel image registered under the
new tag "c" is found at slot 3. -/
theorem CreateGLTexture_then_FindTextureSlot_witness :
    ∃ (s1 : SceneManager ℚ) (gl1 : GLContext),
      CreateGLTexture exampleDecoder exampleRegistry emptyGL "rgba.png" "c"
        = Outcome.ok (true, s1, gl1) ∧
      FindTextureSlot s1 "c" = Outcome.ok exampleRegistry.m_loadedTextures :=
  CreateGLTexture_then_FindTextureSlot ℚ exampleDecoder exampleRegistry emptyGL "rgba.png" "c"
    { width := 2, height := 2, colorChannels := 4 } (by decide) (by decide) (by decide)
    (by decide)

/-- C3: when the file cannot be decoded, or decodes with a channel count other than 3
and 4, `CreateGLTexture` returns false and leaves the registry as it was: the same
`m_loadedTextures`, and the same tag and ID in every entry. -/
theorem CreateGLTexture_failure_keeps_registry (K : Type)
    (stbi_load : String → Option STBImage) (s : SceneManager K) (gl : GLContext)
    (filename tag : String)
    (h : stbi_load filename = none ∨ ∃ image, stbi_load filename = some image ∧
      image.colorChannels ≠ 3 ∧ image.colorChannels ≠ 4) :
    ∃ (s1 : SceneManager K) (gl1 : GLContext),
      CreateGLTexture stbi_load s gl filename tag = Outcome.ok (false, s1, gl1) ∧
      s1.m_loadedTextures = s.m_loadedTextures ∧
      ∀ i : Fin 16, (s1.m_textureIDs i).tag = (s.m_textureIDs i).tag ∧
        (s1.m_textureIDs i).ID = (s.m_textureIDs i).ID := by
  obtain ⟨gl1, e⟩ := CreateGLTexture_failure stbi_load s gl filename tag h
  exact ⟨s, gl1, e, rfl, fun _ => ⟨rfl, rfl⟩⟩

/-- C3, at the registry holding "a", "b", "a" and a single-channel image. -/
theorem CreateGLTexture_failure_keeps_registry_witness :
    ∃ (s1 : SceneManager ℚ) (gl1 : GLContext),
      CreateGLTexture exampleDecoder exampleRegistry emptyGL "grey.png" "c"
        = Outcome.ok (false, s1, gl1) ∧
      s1.m_loadedTextures = exampleRegistry.m_loadedTextures ∧
      ∀ i : Fin 16, (s1.m_textureIDs i).tag = (exampleRegistry.m_textureIDs i).tag ∧
        (s1.m_textureIDs i).ID = (exampleRegistry.m_textureIDs i).ID :=
  CreateGLTexture_failure_keeps_registry ℚ exampleDecoder exampleRegistry emptyGL "grey.png" "c"
    (Or.inr ⟨{ width := 2, height := 2, colorChannels := 1 }, by decide, by decide, by decide⟩)

/-- C4: for a tag that no registered entry carries (in a registry within its capacity
of 16), `FindTextureSlot` and `FindTextureID` both return the sentinel `-1` and
complete without fault; so do both on the freshly constructed registry, for every tag. -/
theorem FindTexture_unregistered_sentinel (K : Type) (s : SceneManager K) (tag : String)
    (hcap : s.m_loadedTextures ≤ 16) (hno : ∀ k : Fin 16, ¬ carries s tag k) :
    FindTextureSlot s tag = Outcome.ok (-1) ∧ FindTextureID s tag = Outcome.ok (-1) ∧
    ∀ (p : Option (ShaderManager K)) (t : String),
      FindTextureSlot (construct p) t = Outcome.ok (-1) ∧
      FindTextureID (construct p) t = Outcome.ok (-1) := by
  refine ⟨FindTextureSlot_of_absent s tag hcap hno, FindTextureID_of_absent s tag hcap hno, ?_⟩
  intro p t
  have hempty : ∀ k : Fin 16, ¬ carries (construct p) t k := by
    intro k hk
    have h1 : (k.val : Int) < 0 := hk.1
    omega
  exact ⟨FindTextureSlot_of_absent _ t (by simp [construct]) hempty,
    FindTextureID_of_absent _ t (by simp [construct]) hempty⟩

/-- C4, at the registry holding "a", "b", "a" and the tag "c". -/
theorem FindTexture_unregistered_sentinel_witness :
    FindTextureSlot exampleRegistry "c" = Outcome.ok (-1) ∧
    FindTextureID exampleRegistry "c" = Outcome.ok (-1) ∧
    ∀ (p : Option (ShaderManager ℚ)) (t : String),
      FindTextureSlot (construct p) t = Outcome.ok (-1) ∧
      FindTextureID (construct p) t = Outcome.ok (-1) :=
  FindTexture_unregistered_sentinel ℚ exampleRegistry "c" (by decide) (by decide)

/-- C8: in a registry holding fewer than 16 textures, a tag that `FindTextureSlot`
resolves to slot `i >= 0` still resolves to `i` after one more call of
`CreateGLTexture`, whatever the file and the tag and whether the call succeeds or
fails, and `FindTextureID` returns the same ID before and after. -/
theorem CreateGLTexture_index_stable (K : Type)
    (stbi_load : String → Option STBImage) (s : SceneManager K) (gl : GLContext)
    (filename tag t : String) (i : Int)
    (hlt : s.m_loadedTextures < 16) (hfind : FindTextureSlot s t = Outcome.ok i)
    (hi : 0 ≤ i) :
    ∃ (b : Bool) (s1 : SceneManager K) (gl1 : GLContext) (id : Int),
      CreateGLTexture stbi_load s gl filename tag = Outcome.ok (b, s1, gl1) ∧
      FindTextureSlot s1 t = Outcome.ok i ∧
      FindTextureID s t = Outcome.ok id ∧ FindTextureID s1 t = Outcome.ok id := by
  rcases FindTexture_cases s t (le_of_lt hlt) with ⟨j, hj, hmin, hslot, hid⟩ | ⟨_, hslot, _⟩
  · have hij : i = (j.val : Int) := by
      rw [hslot] at hfind
      exact (Outcome.ok.inj hfind).symm
    subst hij
    have hjn : (j.val : Int) < s.m_loadedTextures := hj.1
    have hn : 0 ≤ s.m_loadedTextures ∧ s.m_loadedTextures < 16 := ⟨by omega, hlt⟩
    by_cases hok : ∃ image, stbi_load filename = some image ∧
        (image.colorChannels = 3 ∨ image.colorChannels = 4)
    · obtain ⟨image, hload, hch⟩ := hok
      obtain ⟨gl1, e⟩ := CreateGLTexture_success stbi_load s gl filename tag image hload hch hn
      obtain ⟨c1, c2, c3⟩ := first_carrier_after_append s t j
        { tag := tag, ID := gl.freshName } hn hj hmin
      refine ⟨true, _, gl1, _, e, FindTextureSlot_of_first _ t j c1 c2, hid, ?_⟩
      rw [FindTextureID_of_first _ t j c1 c2, c3]
    · have hfail : stbi_load filename = none ∨ ∃ image, stbi_load filename = some image ∧
          image.colorChannels ≠ 3 ∧ image.colorChannels ≠ 4 := by
        cases hl : stbi_load filename with
        | none => exact Or.inl rfl
        | some image =>
          refine Or.inr ⟨image, rfl, ?_, ?_⟩
          · intro h3; exact hok ⟨image, hl, Or.inl h3⟩
          · intro h4; exact hok ⟨image, hl, Or.inr h4⟩
      obtain ⟨gl1, e⟩ := CreateGLTexture_failure stbi_load s gl filename tag hfail
      exact ⟨false, s, gl1, _, e, hslot, hid, hid⟩
  · rw [hslot] at hfind
    have := Outcome.ok.inj hfind
    omega

/-- C8, at the registry holding "a", "b", "a": "b" is at slot 1 before and after "b"
itself is registered once more. -/
theorem CreateGLTexture_index_stable_witness :
    ∃ (b : Bool) (s1 : SceneManager ℚ) (gl1 : GLContext) (id : Int),
      CreateGLTexture exampleDecoder exampleRegistry emptyGL "rgb.jpg" "b"
        = Outcome.ok (b, s1, gl1) ∧
      FindTextureSlot s1 "b" = Outcome.ok 1 ∧
      FindTextureID exampleRegistry "b" = Outcome.ok id ∧
      FindTextureID s1 "b" = Outcome.ok id :=
  CreateGLTexture_index_stable ℚ exampleDecoder exampleRegistry emptyGL "rgb.jpg" "b" "b" 1
    (by decide) (by decide) (by decide)

end SceneManager

/-! ## Material registry -/

namespace SceneManager

variable {K : Type}

theorem FindMaterial_loop_done (s : SceneManager K) (tag : String) (fuel : Nat)
    (index : Int) (material : OBJECT_MATERIAL K) :
    FindMaterial.loop s tag (fuel + 1) index true material = Outcome.ok material := by
  simp [FindMaterial.loop]

theorem FindMaterial_loop_found (s : SceneManager K) (tag : String) (k : Nat)
    (m : OBJECT_MATERIAL K) (hk : s.m_objectMaterials[k]? = some m) (ht : m.tag = tag) :
    ∀ (fuel i : Nat) (material : OBJECT_MATERIAL K), i ≤ k →
      (∀ (l : Nat) (m1 : OBJECT_MATERIAL K), i ≤ l → l < k →
        s.m_objectMaterials[l]? = some m1 → m1.tag ≠ tag) →
      k - i + 2 ≤ fuel →
      FindMaterial.loop s tag fuel (i : Int) false material
        = Outcome.ok (copyMaterial m material) := by
  have hklen : k < s.m_objectMaterials.length := by
    by_contra hge
    rw [List.getElem?_eq_none (not_lt.mp hge)] at hk
    exact Option.noConfusion hk
  intro fuel
  induction fuel with
  | zero => intro i material _ _ hf; omega
  | succ fuel ih =>
    intro i material hik hne hf
    have hilen : i < s.m_objectMaterials.length := by omega
    have hcond : (i : Int) < (s.m_objectMaterials.length : Int) := by omega
    rw [FindMaterial.loop]
    simp only [hcond, true_and, if_true, Int.toNat_ofNat, List.getElem?_eq_getElem hilen]
    by_cases hi : (s.m_objectMaterials[i]).tag = tag
    · have hEq : i = k := by
        rcases Nat.lt_or_ge i k with hlt | hge
        · exact absurd hi (hne i _ le_rfl hlt (List.getElem?_eq_getElem hilen))
        · omega
      subst hEq
      rw [List.getElem?_eq_getElem hilen] at hk
      have hm : s.m_objectMaterials[i] = m := Option.some.inj hk
      rw [hm]
      simp only [ht, if_true]
      obtain ⟨f, rfl⟩ : ∃ f, fuel = f + 1 := ⟨fuel - 1, by omega⟩
      exact FindMaterial_loop_done s tag f _ _
    · have hlt : i < k := by
        rcases Nat.lt_or_ge i k with hlt | hge
        · exact hlt
        · have hEq : i = k := by omega
          subst hEq
          rw [List.getElem?_eq_getElem hilen] at hk
          exact absurd ((Option.some.inj hk) ▸ ht) hi
      simp only [hi, if_false]
      have := ih (i + 1) material (by omega)
        (fun l m1 hl hlk => hne l m1 (by omega) hlk) (by omega)
      simpa using this

theorem FindMaterial_loop_absent (s : SceneManager K) (tag : String)
    (hno : ∀ (l : Nat) (m1 : OBJECT_MATERIAL K),
      s.m_objectMaterials[l]? = some m1 → m1.tag ≠ tag) :
    ∀ (fuel i : Nat) (material : OBJECT_MATERIAL K),
      s.m_objectMaterials.length - i + 1 ≤ fuel →
      FindMaterial.loop s tag fuel (i : Int) false material = Outcome.ok material := by
  intro fuel
  induction fuel with
  | zero => intro i material hf; omega
  | succ fuel ih =>
    intro i material hf
    rw [FindMaterial.loop]
    by_cases hcond : (i : Int) < (s.m_objectMaterials.length : Int)
    · have hilen : i < s.m_objectMaterials.length := by omega
      simp only [hcond, true_and, if_true, Int.toNat_ofNat, List.getElem?_eq_getElem hilen]
      have hne : ¬ (s.m_objectMaterials[i]).tag = tag :=
        hno i _ (List.getElem?_eq_getElem hilen)
      simp only [hne, if_false]
      have := ih (i + 1) material (by omega)
      simpa using this
    · simp [hcond]

/-- In a non-empty list without the tag, `FindMaterial` returns true and leaves the
out-parameter as it was. -/
theorem FindMaterial_absent_returns_true (s : SceneManager K) (tag : String)
    (material : OBJECT_MATERIAL K) (hne : s.m_objectMaterials ≠ [])
    (hno : ∀ (l : Nat) (m1 : OBJECT_MATERIAL K),
      s.m_objectMaterials[l]? = some m1 → m1.tag ≠ tag) :
    FindMaterial s tag material = Outcome.ok (true, material) := by
  have hlen : s.m_objectMaterials.length ≠ 0 := by
    intro h
    exact hne (List.length_eq_zero.mp h)
  have := FindMaterial_loop_absent s tag hno (s.m_objectMaterials.length + 1) 0 material
    (by omega)
  simp only [Nat.cast_zero] at this
  simp [FindMaterial, hlen, this]

/-- C5 (the code at a list that lacks the tag): with the three materials "wood",
"wood", "metal" defined, `FindMaterial("glass", material)` returns true, not false,
and leaves the out-parameter untouched; only on the empty list does it return false. -/
theorem FindMaterial_unknown_tag_returns_true :
    (∀ m ∈ exampleMaterials.m_objectMaterials, m.tag ≠ "glass") ∧
    FindMaterial exampleMaterials "glass" blankMaterial = Outcome.ok (true, blankMaterial) ∧
    FindMaterial (construct (none : Option (ShaderManager ℚ))) "glass" blankMaterial
      = Outcome.ok (false, blankMaterial) := by
  refine ⟨by simp [exampleMaterials], ?_, by simp [FindMaterial, construct]⟩
  simp [FindMaterial, FindMaterial.loop, exampleMaterials]

/-- C6: when two or more materials of the list carry the tag, `FindMaterial` returns
true and sets the five property fields of the out-parameter to those of the first
material in the list that carries the tag: the material at the least index `k` among
the carriers of the tag, never a later one. -/
theorem FindMaterial_first_definition_wins (K : Type) (s : SceneManager K) (tag : String)
    (material : OBJECT_MATERIAL K)
    (hdup : ∃ (i j : Nat) (mi mj : OBJECT_MATERIAL K), i < j ∧
      s.m_objectMaterials[i]? = some mi ∧ s.m_objectMaterials[j]? = some mj ∧
      mi.tag = tag ∧ mj.tag = tag) :
    ∃ (k : Nat) (m out : OBJECT_MATERIAL K),
      s.m_objectMaterials[k]? = some m ∧ m.tag = tag ∧
      (∀ (l : Nat) (m1 : OBJECT_MATERIAL K),
        s.m_objectMaterials[l]? = some m1 → m1.tag = tag → k ≤ l) ∧
      FindMaterial s tag material = Outcome.ok (true, out) ∧
      out.ambientColor = m.ambientColor ∧ out.ambientStrength = m.ambientStrength ∧
      out.diffuseColor = m.diffuseColor ∧ out.specularColor = m.specularColor ∧
      out.shininess = m.shininess := by
  classical
  obtain ⟨i, _, mi, _, _, hi, _, hti, _⟩ := hdup
  have hex : ∃ n : Nat, ∃ m, s.m_objectMaterials[n]? = some m ∧ m.tag = tag :=
    ⟨i, mi, hi, hti⟩
  obtain ⟨m, hm, hmt⟩ := Nat.find_spec hex
  have hmin : ∀ (l : Nat) (m1 : OBJECT_MATERIAL K), l < Nat.find hex →
      s.m_objectMaterials[l]? = some m1 → m1.tag ≠ tag :=
    fun l m1 hl h1 ht => Nat.find_min hex hl ⟨m1, h1, ht⟩
  have hklen : Nat.find hex < s.m_objectMaterials.length := by
    by_contra hge
    rw [List.getElem?_eq_none (not_lt.mp hge)] at hm
    exact Option.noConfusion hm
  have hlen : s.m_objectMaterials.length ≠ 0 := by omega
  have hloop := FindMaterial_loop_found s tag (Nat.find hex) m hm hmt
    (s.m_objectMaterials.length + 1) 0 material (Nat.zero_le _)
    (fun l m1 _ hl h1 => hmin l m1 hl h1) (by omega)
  simp only [Nat.cast_zero] at hloop
  refine ⟨Nat.find hex, m, copyMaterial m material, hm, hmt, ?_, ?_, rfl, rfl, rfl, rfl, rfl⟩
  · intro l m1 h1 ht
    exact Nat.find_min' hex ⟨m1, h1, ht⟩
  · simp [FindMaterial, hlen, hloop]

/-- C6, at the list "wood", "wood", "metal": the lookup of "wood" returns true with
the properties of the earliest carrier of the tag. -/
theorem FindMaterial_first_definition_wins_witness :
    (∃ (i j : Nat) (mi mj : OBJECT_MATERIAL ℚ), i < j ∧
      exampleMaterials.m_objectMaterials[i]? = some mi ∧
      exampleMaterials.m_objectMaterials[j]? = some mj ∧
      mi.tag = "wood" ∧ mj.tag = "wood") ∧
    ∃ (k : Nat) (m out : OBJECT_MATERIAL ℚ),
      exampleMaterials.m_objectMaterials[k]? = some m ∧ m.tag = "wood" ∧
      (∀ (l : Nat) (m1 : OBJECT_MATERIAL ℚ),
        exampleMaterials.m_objectMaterials[l]? = some m1 → m1.tag = "wood" → k ≤ l) ∧
      FindMaterial exampleMaterials "wood" blankMaterial = Outcome.ok (true, out) ∧
      out.ambientColor = m.ambientColor ∧ out.ambientStrength = m.ambientStrength ∧
      out.diffuseColor = m.diffuseColor ∧ out.specularColor = m.specularColor ∧
      out.shininess = m.shininess :=
  ⟨⟨0, 1, _, _, by decide, rfl, rfl, rfl, rfl⟩,
    FindMaterial_first_definition_wins ℚ exampleMaterials "wood" blankMaterial
      ⟨0, 1, _, _, by decide, rfl, rfl, rfl, rfl⟩⟩

end SceneManager

/-! ## Transform composition -/

namespace SceneManager

/-- With `cos 0 = 1`, `sin 0 = 0` and `sqrt 1 = 1`, a rotation by 0 degrees about a
coordinate axis is the identity matrix. -/
theorem rotate_zero_degrees {K : Type} [Field K] (fm : FloatMath K)
    (hcos : fm.cos 0 = 1) (hsin : fm.sin 0 = 0) (hsqrt : fm.sqrt 1 = 1) :
    glm.rotate fm (glm.radians fm 0) { x := 1, y := 0, z := 0 } = 1 ∧
    glm.rotate fm (glm.radians fm 0) { x := 0, y := 0, z := 1 } = 1 := by
  constructor <;>
  · ext i j
    fin_cases i <;> fin_cases j <;>
      simp [glm.rotate, glm.radians, glm.normalize, glm.inversesqrt, glm.dot, hcos, hsin, hsqrt,
        Matrix.one_apply, Matrix.vecHead, Matrix.vecTail]

/-- C7: the matrix that `SetTransformations` pushes to the uniform "model" is
`Translation * RotationX * RotationY * RotationZ * Scale`, multiplied in that order
(nothing is pushed when the shader manager is `NULL`); over the reals, for scale
(2,1,1), rotation (0,90,0) degrees and translation (1,0,0) that matrix equals
`Translation * RotationY(90 degrees) * Scale` and maps the point (1,1,1) to (2,1,-2). -/
theorem SetTransformations_model_matrix :
    (∀ (K : Type) [Field K] (fm : FloatMath K) (s : SceneManager K) (sh : ShaderManager K)
        (scaleXYZ : Vec3 K) (xDeg yDeg zDeg : K) (positionXYZ : Vec3 K),
      SetTransformations fm { s with m_pShaderManager := some sh } scaleXYZ xDeg yDeg zDeg
          positionXYZ
        = { s with m_pShaderManager := some { uniforms := sh.uniforms ++ [("model",
            UniformValue.mat4 (glm.translate positionXYZ
              * glm.rotate fm (glm.radians fm xDeg) { x := 1, y := 0, z := 0 }
              * glm.rotate fm (glm.radians fm yDeg) { x := 0, y := 1, z := 0 }
              * glm.rotate fm (glm.radians fm zDeg) { x := 0, y := 0, z := 1 }
              * glm.scale scaleXYZ))] } } ∧
      SetTransformations fm { s with m_pShaderManager := none } scaleXYZ xDeg yDeg zDeg
          positionXYZ
        = { s with m_pShaderManager := none }) ∧
    (modelView { cos := Real.cos, sin := Real.sin, sqrt := Real.sqrt, pi := Real.pi }
        { x := 2, y := 1, z := 1 } 0 90 0 { x := 1, y := 0, z := 0 }
      = glm.translate ({ x := 1, y := 0, z := 0 } : Vec3 ℝ)
        * glm.rotate { cos := Real.cos, sin := Real.sin, sqrt := Real.sqrt, pi := Real.pi }
            (glm.radians { cos := Real.cos, sin := Real.sin, sqrt := Real.sqrt, pi := Real.pi }
              90) { x := 0, y := 1, z := 0 }
        * glm.scale ({ x := 2, y := 1, z := 1 } : Vec3 ℝ)) ∧
    Matrix.mulVec
        (modelView { cos := Real.cos, sin := Real.sin, sqrt := Real.sqrt, pi := Real.pi }
          { x := 2, y := 1, z := 1 } 0 90 0 { x := 1, y := 0, z := 0 })
        ![1, 1, 1, 1]
      = ![2, 1, -2, 1] := by
  have hzero := rotate_zero_degrees
    ({ cos := Real.cos, sin := Real.sin, sqrt := Real.sqrt, pi := Real.pi } : FloatMath ℝ)
    Real.cos_zero Real.sin_zero Real.sqrt_one
  have hM : modelView { cos := Real.cos, sin := Real.sin, sqrt := Real.sqrt, pi := Real.pi }
        { x := 2, y := 1, z := 1 } 0 90 0 { x := 1, y := 0, z := 0 }
      = glm.translate ({ x := 1, y := 0, z := 0 } : Vec3 ℝ)
        * glm.rotate { cos := Real.cos, sin := Real.sin, sqrt := Real.sqrt, pi := Real.pi }
            (glm.radians { cos := Real.cos, sin := Real.sin, sqrt := Real.sqrt, pi := Real.pi }
              90) { x := 0, y := 1, z := 0 }
        * glm.scale ({ x := 2, y := 1, z := 1 } : Vec3 ℝ) := by
    simp only [modelView]
    rw [hzero.1, hzero.2, mul_one, mul_one]
  refine ⟨?_, hM, ?_⟩
  · intro K _ fm s sh scaleXYZ xDeg yDeg zDeg positionXYZ
    exact ⟨rfl, rfl⟩
  · rw [hM]
    have h90 : (90 : ℝ) * (Real.pi / 180) = Real.pi / 2 := by ring
    funext i
    fin_cases i <;>
      simp [glm.translate, glm.rotate, glm.scale, glm.radians, glm.normalize, glm.inversesqrt,
        glm.dot, h90, Matrix.mulVec, Matrix.dotProduct, Matrix.mul_apply, Fin.sum_univ_four]
    norm_num

end SceneManager

namespace SceneManager

variable {K : Type}

/-- The unit number passed to `glActiveTexture` for slot `i`. -/
theorem activeTexture_unit (i : Nat) (h : i < 16) :
    toUInt32 (GL_TEXTURE0 + (i : Int)) = 0x84C0 + i := by
  simp only [toUInt32, GL_TEXTURE0]
  omega

theorem BindGLTextures_loop_calls (s : SceneManager K) (hcap : s.m_loadedTextures ≤ 16) :
    ∀ (fuel i : Nat) (gl : GLContext),
      (s.m_loadedTextures - (i : Int)).toNat + 1 ≤ fuel →
      BindGLTextures.loop s fuel (i : Int) gl = Outcome.ok
        { gl with calls := gl.calls ++
            (List.range' i (s.m_loadedTextures.toNat - i)).flatMap (fun k =>
              [GLCall.glActiveTexture (0x84C0 + k),
                GLCall.glBindTexture GL_TEXTURE_2D (slotID s k)]) } := by
  intro fuel
  induction fuel with
  | zero => intro i gl hf; omega
  | succ fuel ih =>
    intro i gl hf
    rw [BindGLTextures.loop]
    by_cases hcond : (i : Int) < s.m_loadedTextures
    · have h16 : i < 16 := by omega
      have hread := textureAt_fin s ⟨i, h16⟩
      simp only at hread
      simp only [hcond, if_true, hread]
      have hstep := ih (i + 1) ((gl.call (GLCall.glActiveTexture
        (toUInt32 (GL_TEXTURE0 + (i : Int))))).call
        (GLCall.glBindTexture GL_TEXTURE_2D (s.m_textureIDs ⟨i, h16⟩).ID)) (by push_cast; omega)
      have hcast : ((i + 1 : Nat) : Int) = (i : Int) + 1 := by push_cast; rfl
      rw [hcast] at hstep
      rw [hstep]
      have hlen : s.m_loadedTextures.toNat - i = (s.m_loadedTextures.toNat - (i + 1)) + 1 := by
        omega
      rw [hlen, List.range'_succ]
      simp [GLContext.call, activeTexture_unit i h16, slotID, h16]
    · have hz : s.m_loadedTextures.toNat - i = 0 := by omega
      simp [hcond, hz]

end SceneManager

namespace SceneManager

/-- C9: for a registry holding `n` textures (within the capacity of 16),
`BindGLTextures` issues, for `i = 0, 1, ..., n-1` in increasing order,
`glActiveTexture(GL_TEXTURE0 + i)` followed by `glBindTexture(GL_TEXTURE_2D, ID at i)`,
and nothing else: no slot at or above `n` is bound and no texture name is created or
released. -/
theorem BindGLTextures_binds_each_slot (K : Type) (s : SceneManager K) (gl : GLContext)
    (hcap : s.m_loadedTextures ≤ 16) :
    BindGLTextures s gl = Outcome.ok
      { calls := gl.calls ++
          (List.range s.m_loadedTextures.toNat).flatMap (fun i =>
            [GLCall.glActiveTexture (0x84C0 + i),
              GLCall.glBindTexture GL_TEXTURE_2D (slotID s i)]),
        textures := gl.textures } := by
  have h := BindGLTextures_loop_calls s hcap (s.m_loadedTextures.toNat + 1) 0 gl (by simp)
  simp only [Nat.cast_zero, Nat.sub_zero] at h
  rw [BindGLTextures, h, List.range_eq_range']

/-- C9, at the registry holding "a", "b", "a" with IDs 1, 2, 3: six calls, units
`GL_TEXTURE0`, `GL_TEXTURE0 + 1`, `GL_TEXTURE0 + 2` in that order. -/
theorem BindGLTextures_binds_each_slot_witness :
    BindGLTextures exampleRegistry emptyGL = Outcome.ok
      { calls :=
          [GLCall.glActiveTexture 0x84C0, GLCall.glBindTexture GL_TEXTURE_2D 1,
            GLCall.glActiveTexture 0x84C1, GLCall.glBindTexture GL_TEXTURE_2D 2,
            GLCall.glActiveTexture 0x84C2, GLCall.glBindTexture GL_TEXTURE_2D 3],
        textures := [] } :=
  (BindGLTextures_binds_each_slot ℚ exampleRegistry emptyGL (by decide)).trans (by decide)

/-- C10 (the code at a registry holding one texture): after `CreateGLTexture` has
registered texture name 1 in slot 0, `DestroyGLTextures` issues exactly one OpenGL
call, `glGenTextures`, which creates the new name 2 and stores it in slot 0; name 1 is
still in use afterwards and no `glDeleteTextures` call is made. -/
theorem DestroyGLTextures_generates_instead_of_deleting :
    ∃ (s1 s2 : SceneManager ℚ) (gl1 gl2 : GLContext),
      CreateGLTexture exampleDecoder (construct none) emptyGL "rgb.jpg" "wood"
        = Outcome.ok (true, s1, gl1) ∧
      s1.m_loadedTextures = 1 ∧ (s1.m_textureIDs 0).ID = 1 ∧ gl1.textures = [1] ∧
      DestroyGLTextures s1 gl1 = Outcome.ok (s2, gl2) ∧
      gl2.calls = gl1.calls ++ [GLCall.glGenTextures 1 2] ∧
      (s2.m_textureIDs 0).ID = 2 ∧ gl2.textures = [2, 1] ∧
      ∀ name : Nat, GLCall.glDeleteTextures 1 name ∉ gl2.calls := by
  refine ⟨_, _, _, _, rfl, rfl, rfl, rfl, rfl, rfl, rfl, rfl, ?_⟩
  intro name
  simp [GLContext.call, GLContext.glGenTextures, emptyGL]

end SceneManager

/-! ## Shader pushes of the texture slot, and agreement of the two lookups -/

namespace SceneManager

variable {K : Type}

theorem bind_ok {α β : Type} (a : α) (f : α → Outcome β) :
    (Outcome.ok a).bind f = f a := rfl

/-- The lookups read only the texture table and the count. -/
theorem carries_shader_irrelevant (s : SceneManager K) (x : Option (ShaderManager K))
    (tag : String) (k : Fin 16) :
    carries { s with m_pShaderManager := x } tag k ↔ carries s tag k := Iff.rfl

/-- C11: for a tag that no registered entry carries (registry within its capacity of
16), `SetShaderTexture(tag)` with a non-`NULL` shader manager completes without fault
and pushes exactly two values, in this order: "bUseTexture" set to true (the int 1),
then the sampler "objectTexture" set to the sentinel `-1`; with a `NULL` shader manager
it pushes nothing and changes nothing. -/
theorem SetShaderTexture_unregistered_pushes_sentinel (K : Type) (s : SceneManager K)
    (tag : String) (sh : ShaderManager K)
    (hcap : s.m_loadedTextures ≤ 16) (hno : ∀ k : Fin 16, ¬ carries s tag k) :
    SetShaderTexture { s with m_pShaderManager := some sh } tag
      = Outcome.ok { s with m_pShaderManager := some { uniforms := sh.uniforms ++
          [("bUseTexture", UniformValue.int 1),
            ("objectTexture", UniformValue.sampler2D (-1))] } } ∧
    SetShaderTexture { s with m_pShaderManager := none } tag
      = Outcome.ok { s with m_pShaderManager := none } := by
  have hslot : FindTextureSlot { s with m_pShaderManager := some sh } tag = Outcome.ok (-1) :=
    FindTextureSlot_of_absent _ tag hcap (fun k hk => hno k hk)
  refine ⟨?_, rfl⟩
  simp [SetShaderTexture, hslot, bind_ok, ShaderManager.push, g_UseTextureName,
    g_TextureValueName, boolToInt]

/-- C11, at the registry holding "a", "b", "a" and the unregistered tag "c". -/
theorem SetShaderTexture_unregistered_pushes_sentinel_witness :
    SetShaderTexture { exampleRegistry with m_pShaderManager := some { uniforms := [] } } "c"
      = Outcome.ok { exampleRegistry with m_pShaderManager := some { uniforms := [] ++
          [("bUseTexture", UniformValue.int 1),
            ("objectTexture", UniformValue.sampler2D (-1))] } } ∧
    SetShaderTexture { exampleRegistry with m_pShaderManager := none } "c"
      = Outcome.ok { exampleRegistry with m_pShaderManager := none } :=
  SetShaderTexture_unregistered_pushes_sentinel ℚ exampleRegistry "c" { uniforms := [] }
    (by decide) (by decide)

/-- C12: on every registry state within the capacity of 16 and for every tag, both
lookups complete; `FindTextureSlot` returns `-1` exactly when no registered entry
carries the tag, and then `FindTextureID` returns `-1` as well; otherwise
`FindTextureSlot` returns a table index `j` and `FindTextureID` returns the ID stored at
index `j`, as the `int` that the `GLuint` converts to (the same number when the ID is
below `2^31`, and the same `GLuint` when converted back). -/
theorem FindTextureID_agrees_with_FindTextureSlot (K : Type) (s : SceneManager K)
    (tag : String) (hcap : s.m_loadedTextures ≤ 16) :
    ∃ (slot id : Int), FindTextureSlot s tag = Outcome.ok slot ∧
      FindTextureID s tag = Outcome.ok id ∧
      (slot = -1 ↔ ∀ k : Fin 16, ¬ carries s tag k) ∧
      (slot = -1 → id = -1) ∧
      (slot ≠ -1 → ∃ j : Fin 16, slot = (j.val : Int) ∧ carries s tag j ∧
        id = toInt32 (s.m_textureIDs j).ID ∧
        toUInt32 id = (s.m_textureIDs j).ID % 2 ^ 32 ∧
        ((s.m_textureIDs j).ID < 2 ^ 31 → id = ((s.m_textureIDs j).ID : Int))) := by
  rcases FindTexture_cases s tag hcap with ⟨j, hj, _, hslot, hid⟩ | ⟨hno, hslot, hid⟩
  · refine ⟨_, _, hslot, hid, ?_, ?_, ?_⟩
    · constructor
      · intro h; omega
      · intro h; exact absurd hj (h j)
    · intro h; omega
    · intro _
      refine ⟨j, rfl, hj, rfl, ?_, ?_⟩
      · simp only [toUInt32, toInt32]
        split <;> omega
      · intro hsmall
        simp only [toInt32]
        split <;> omega
  · refine ⟨_, _, hslot, hid, ?_, ?_, ?_⟩
    · exact ⟨fun _ => hno, fun _ => rfl⟩
    · intro _; rfl
    · intro h; exact absurd rfl h

/-- C12, at the registry holding "a", "b", "a" and the tag "b". -/
theorem FindTextureID_agrees_with_FindTextureSlot_witness :
    ∃ (slot id : Int), FindTextureSlot exampleRegistry "b" = Outcome.ok slot ∧
      FindTextureID exampleRegistry "b" = Outcome.ok id ∧
      (slot = -1 ↔ ∀ k : Fin 16, ¬ carries exampleRegistry "b" k) ∧
      (slot = -1 → id = -1) ∧
      (slot ≠ -1 → ∃ j : Fin 16, slot = (j.val : Int) ∧ carries exampleRegistry "b" j ∧
        id = toInt32 (exampleRegistry.m_textureIDs j).ID ∧
        toUInt32 id = (exampleRegistry.m_textureIDs j).ID % 2 ^ 32 ∧
        ((exampleRegistry.m_textureIDs j).ID < 2 ^ 31 →
          id = ((exampleRegistry.m_textureIDs j).ID : Int))) :=
  FindTextureID_agrees_with_FindTextureSlot ℚ exampleRegistry "b" (by decide)

end SceneManager

/-! ## Scene setup: `LoadSceneTextures` -/

namespace SceneManager

variable {K : Type}

/-- Below capacity, `CreateGLTexture` completes; it returns true exactly when the file
is loadable, and the count grows by one exactly then. -/
theorem CreateGLTexture_step (stbi_load : String → Option STBImage) (s : SceneManager K)
    (gl : GLContext) (filename tag : String)
    (hn : 0 ≤ s.m_loadedTextures ∧ s.m_loadedTextures < 16) :
    ∃ (b : Bool) (s1 : SceneManager K) (gl1 : GLContext),
      CreateGLTexture stbi_load s gl filename tag = Outcome.ok (b, s1, gl1) ∧
      s1.m_loadedTextures = s.m_loadedTextures + countLoaded [b] ∧
      (b = true ↔ loadable stbi_load filename) := by
  by_cases hok : loadable stbi_load filename
  · obtain ⟨image, hload, hch⟩ := hok
    obtain ⟨s1, gl1, e, n1, _, _⟩ :=
      CreateGLTexture_success_entries stbi_load s gl filename tag image hload hch hn
    exact ⟨true, s1, gl1, e, by simpa [countLoaded] using n1,
      ⟨fun _ => ⟨image, hload, hch⟩, fun _ => rfl⟩⟩
  · have hfail : stbi_load filename = none ∨ ∃ image, stbi_load filename = some image ∧
        image.colorChannels ≠ 3 ∧ image.colorChannels ≠ 4 := by
      cases hl : stbi_load filename with
      | none => exact Or.inl rfl
      | some image =>
        refine Or.inr ⟨image, rfl, ?_, ?_⟩
        · intro h3; exact hok ⟨image, hl, Or.inl h3⟩
        · intro h4; exact hok ⟨image, hl, Or.inr h4⟩
    obtain ⟨gl1, e⟩ := CreateGLTexture_failure stbi_load s gl filename tag hfail
    refine ⟨false, s, gl1, e, by simp [countLoaded], ?_⟩
    constructor
    · intro h; exact Bool.noConfusion h
    · intro h; exact absurd h hok

/-- Within capacity, `BindGLTextures` completes. -/
theorem BindGLTextures_completes (s : SceneManager K) (gl : GLContext)
    (hcap : s.m_loadedTextures ≤ 16) : ∃ gl1 : GLContext, BindGLTextures s gl = Outcome.ok gl1 :=
  ⟨_, BindGLTextures_loop_calls s hcap (s.m_loadedTextures.toNat + 1) 0 gl (by simp)⟩

theorem countLoaded_bounds (b : Bool) : 0 ≤ countLoaded [b] ∧ countLoaded [b] ≤ 1 := by
  cases b <;> simp [countLoaded]

theorem countLoaded_five (b1 b2 b3 b4 b5 : Bool) :
    countLoaded [b1, b2, b3, b4, b5]
      = countLoaded [b1] + countLoaded [b2] + countLoaded [b3] + countLoaded [b4]
        + countLoaded [b5] := by
  cases b1 <;> cases b2 <;> cases b3 <;> cases b4 <;> cases b5 <;> rfl

/-- C13: from the freshly constructed scene manager, whatever the five image loads do,
`LoadSceneTextures` completes without an out-of-bounds access: each of its five
`CreateGLTexture` calls starts with `m_loadedTextures` between 0 and 4, so any write it
makes into the 16-entry table is at an index below 16; at the end `m_loadedTextures` is
the number of the five calls that returned true, hence at most 5. -/
theorem LoadSceneTextures_count_and_bounds (K : Type) (stbi_load : String → Option STBImage)
    (p : Option (ShaderManager K)) (gl : GLContext) :
    ∃ (b1 b2 b3 b4 b5 : Bool) (s1 s2 s3 s4 s5 : SceneManager K)
      (gl1 gl2 gl3 gl4 gl5 gl6 : GLContext),
      CreateGLTexture stbi_load (construct p) gl "debug\\textures\\wood.jpg" "wood"
        = Outcome.ok (b1, s1, gl1) ∧
      CreateGLTexture stbi_load s1 gl1 "debug\\textures\\ceramic.jpg" "ceramic"
        = Outcome.ok (b2, s2, gl2) ∧
      CreateGLTexture stbi_load s2 gl2 "debug\\textures\\fabric.jpg" "fabric"
        = Outcome.ok (b3, s3, gl3) ∧
      CreateGLTexture stbi_load s3 gl3 "debug\\textures\\glass.jpg" "glass"
        = Outcome.ok (b4, s4, gl4) ∧
      CreateGLTexture stbi_load s4 gl4 "debug\\textures\\wall.jpg" "wall"
        = Outcome.ok (b5, s5, gl5) ∧
      BindGLTextures s5 gl5 = Outcome.ok gl6 ∧
      LoadSceneTextures stbi_load (construct p) gl = Outcome.ok (s5, gl6) ∧
      s5.m_loadedTextures = countLoaded [b1, b2, b3, b4, b5] ∧
      0 ≤ s5.m_loadedTextures ∧ s5.m_loadedTextures ≤ 5 ∧
      (construct p).m_loadedTextures = 0 ∧
      (0 ≤ s1.m_loadedTextures ∧ s1.m_loadedTextures ≤ 1) ∧
      (0 ≤ s2.m_loadedTextures ∧ s2.m_loadedTextures ≤ 2) ∧
      (0 ≤ s3.m_loadedTextures ∧ s3.m_loadedTextures ≤ 3) ∧
      (0 ≤ s4.m_loadedTextures ∧ s4.m_loadedTextures ≤ 4) := by
  have h0 : (construct p).m_loadedTextures = 0 := rfl
  obtain ⟨b1, s1, gl1, e1, n1, _⟩ := CreateGLTexture_step stbi_load (construct p) gl
    "debug\\textures\\wood.jpg" "wood" (by rw [h0]; omega)
  have c1 := countLoaded_bounds b1
  obtain ⟨b2, s2, gl2, e2, n2, _⟩ := CreateGLTexture_step stbi_load s1 gl1
    "debug\\textures\\ceramic.jpg" "ceramic" (by omega)
  have c2 := countLoaded_bounds b2
  obtain ⟨b3, s3, gl3, e3, n3, _⟩ := CreateGLTexture_step stbi_load s2 gl2
    "debug\\textures\\fabric.jpg" "fabric" (by omega)
  have c3 := countLoaded_bounds b3
  obtain ⟨b4, s4, gl4, e4, n4, _⟩ := CreateGLTexture_step stbi_load s3 gl3
    "debug\\textures\\glass.jpg" "glass" (by omega)
  have c4 := countLoaded_bounds b4
  obtain ⟨b5, s5, gl5, e5, n5, _⟩ := CreateGLTexture_step stbi_load s4 gl4
    "debug\\textures\\wall.jpg" "wall" (by omega)
  have c5 := countLoaded_bounds b5
  obtain ⟨gl6, e6⟩ := BindGLTextures_completes s5 gl5 (by omega)
  have hsum := countLoaded_five b1 b2 b3 b4 b5
  refine ⟨b1, b2, b3, b4, b5, s1, s2, s3, s4, s5, gl1, gl2, gl3, gl4, gl5, gl6,
    e1, e2, e3, e4, e5, e6, ?_, by omega, by omega, by omega, h0, by omega, by omega,
    by omega, by omega⟩
  simp [LoadSceneTextures, e1, e2, e3, e4, e5, e6, bind_ok]

end SceneManager

/-! ## The render pass: tags resolve -/

namespace SceneManager

variable {K : Type}

/-- With the five scene textures registered, each of their tags resolves to its
registration index. -/
theorem sceneTexturesLoaded_slots (s : SceneManager K) (h : sceneTexturesLoaded s) :
    FindTextureSlot s "wood" = Outcome.ok 0 ∧ FindTextureSlot s "ceramic" = Outcome.ok 1 ∧
    FindTextureSlot s "fabric" = Outcome.ok 2 ∧ FindTextureSlot s "glass" = Outcome.ok 3 ∧
    FindTextureSlot s "wall" = Outcome.ok 4 := by
  obtain ⟨hn, t0, t1, t2, t3, t4⟩ := h
  have hlt : ∀ (j : Fin 16), j.val < 5 → (j.val : Int) < s.m_loadedTextures := by
    intro j hj; omega
  have hcases : ∀ (k j : Fin 16), k < j → j.val < 5 →
      k = 0 ∨ k = 1 ∨ k = 2 ∨ k = 3 := by
    intro k j hk hj
    have hk2 : k.val < j.val := hk
    have : k.val = 0 ∨ k.val = 1 ∨ k.val = 2 ∨ k.val = 3 := by omega
    rcases this with h | h | h | h
    · exact Or.inl (Fin.ext h)
    · exact Or.inr (Or.inl (Fin.ext h))
    · exact Or.inr (Or.inr (Or.inl (Fin.ext h)))
    · exact Or.inr (Or.inr (Or.inr (Fin.ext h)))
  refine ⟨?_, ?_, ?_, ?_, ?_⟩
  · exact FindTextureSlot_of_first s "wood" 0 ⟨hlt 0 (by decide), t0⟩
      (fun k hk => absurd hk (Fin.not_lt_zero k))
  · refine FindTextureSlot_of_first s "ceramic" 1 ⟨hlt 1 (by decide), t1⟩ ?_
    intro k hk
    have hk2 : k.val < 1 := hk
    have h0 : k = 0 := Fin.ext (by simp only [Fin.val_zero]; omega)
    subst h0
    rw [t0]; decide
  · refine FindTextureSlot_of_first s "fabric" 2 ⟨hlt 2 (by decide), t2⟩ ?_
    intro k hk
    have hk2 : k.val < 2 := hk
    rcases hcases k 2 hk (by decide) with h | h | h | h <;> subst h
    · rw [t0]; decide
    · rw [t1]; decide
    · exact absurd hk2 (by decide)
    · exact absurd hk2 (by decide)
  · refine FindTextureSlot_of_first s "glass" 3 ⟨hlt 3 (by decide), t3⟩ ?_
    intro k hk
    have hk2 : k.val < 3 := hk
    rcases hcases k 3 hk (by decide) with h | h | h | h <;> subst h
    · rw [t0]; decide
    · rw [t1]; decide
    · rw [t2]; decide
    · exact absurd hk2 (by decide)
  · refine FindTextureSlot_of_first s "wall" 4 ⟨hlt 4 (by decide), t4⟩ ?_
    intro k hk
    rcases hcases k 4 hk (by decide) with h | h | h | h <;> subst h
    · rw [t0]; decide
    · rw [t1]; decide
    · rw [t2]; decide
    · rw [t3]; decide

/-- When all five files are loadable, `LoadSceneTextures` on the constructor state
completes and registers the five scene textures in order. -/
theorem LoadSceneTextures_all_loaded (stbi_load : String → Option STBImage)
    (p : Option (ShaderManager K)) (gl : GLContext)
    (h1 : loadable stbi_load "debug\\textures\\wood.jpg")
    (h2 : loadable stbi_load "debug\\textures\\ceramic.jpg")
    (h3 : loadable stbi_load "debug\\textures\\fabric.jpg")
    (h4 : loadable stbi_load "debug\\textures\\glass.jpg")
    (h5 : loadable stbi_load "debug\\textures\\wall.jpg") :
    ∃ (s5 : SceneManager K) (gl6 : GLContext),
      LoadSceneTextures stbi_load (construct p) gl = Outcome.ok (s5, gl6) ∧
      sceneTexturesLoaded s5 := by
  obtain ⟨i1, l1, c1⟩ := h1
  obtain ⟨i2, l2, c2⟩ := h2
  obtain ⟨i3, l3, c3⟩ := h3
  obtain ⟨i4, l4, c4⟩ := h4
  obtain ⟨i5, l5, c5⟩ := h5
  have h0 : (construct p).m_loadedTextures = 0 := rfl
  obtain ⟨s1, gl1, e1, n1, _, w1⟩ := CreateGLTexture_success_entries stbi_load (construct p)
    gl _ "wood" i1 l1 c1 (by rw [h0]; omega)
  obtain ⟨s2, gl2, e2, n2, o2, w2⟩ := CreateGLTexture_success_entries stbi_load s1
    gl1 _ "ceramic" i2 l2 c2 (by omega)
  obtain ⟨s3, gl3, e3, n3, o3, w3⟩ := CreateGLTexture_success_entries stbi_load s2
    gl2 _ "fabric" i3 l3 c3 (by omega)
  obtain ⟨s4, gl4, e4, n4, o4, w4⟩ := CreateGLTexture_success_entries stbi_load s3
    gl3 _ "glass" i4 l4 c4 (by omega)
  obtain ⟨s5, gl5, e5, n5, o5, w5⟩ := CreateGLTexture_success_entries stbi_load s4
    gl4 _ "wall" i5 l5 c5 (by omega)
  obtain ⟨gl6, e6⟩ := BindGLTextures_completes s5 gl5 (by omega)
  have m1 : s1.m_loadedTextures = 1 := by omega
  have m2 : s2.m_loadedTextures = 2 := by omega
  have m3 : s3.m_loadedTextures = 3 := by omega
  have m4 : s4.m_loadedTextures = 4 := by omega
  refine ⟨s5, gl6, by simp [LoadSceneTextures, e1, e2, e3, e4, e5, e6, bind_ok], by omega,
    ?_, ?_, ?_, ?_, ?_⟩
  · rw [o5 0 (by rw [m4]; decide), o4 0 (by rw [m3]; decide), o3 0 (by rw [m2]; decide), o2 0 (by rw [m1]; decide),
      w1 0 (by rw [h0]; decide)]
  · rw [o5 1 (by rw [m4]; decide), o4 1 (by rw [m3]; decide), o3 1 (by rw [m2]; decide), w2 1 (by rw [m1]; decide)]
  · rw [o5 2 (by rw [m4]; decide), o4 2 (by rw [m3]; decide), w3 2 (by rw [m2]; decide)]
  · rw [o5 3 (by rw [m4]; decide), w4 3 (by rw [m3]; decide)]
  · rw [w5 4 (by rw [m4]; decide)]

/-- `FindMaterial` completes on every list and every tag. -/
theorem FindMaterial_completes (s : SceneManager K) (tag : String)
    (material : OBJECT_MATERIAL K) :
    ∃ (b : Bool) (out : OBJECT_MATERIAL K), FindMaterial s tag material = Outcome.ok (b, out) := by
  classical
  by_cases hlen : s.m_objectMaterials.length = 0
  · exact ⟨false, material, by simp [FindMaterial, hlen]⟩
  · by_cases hex : ∃ n : Nat, ∃ m, s.m_objectMaterials[n]? = some m ∧ m.tag = tag
    · obtain ⟨m, hm, hmt⟩ := Nat.find_spec hex
      have hmin : ∀ (l : Nat) (m1 : OBJECT_MATERIAL K), l < Nat.find hex →
          s.m_objectMaterials[l]? = some m1 → m1.tag ≠ tag :=
        fun l m1 hl h1 ht => Nat.find_min hex hl ⟨m1, h1, ht⟩
      have hklen : Nat.find hex < s.m_objectMaterials.length := by
        by_contra hge
        rw [List.getElem?_eq_none (not_lt.mp hge)] at hm
        exact Option.noConfusion hm
      have hloop := FindMaterial_loop_found s tag (Nat.find hex) m hm hmt
        (s.m_objectMaterials.length + 1) 0 material (Nat.zero_le _)
        (fun l m1 _ hl h1 => hmin l m1 hl h1) (by omega)
      simp only [Nat.cast_zero] at hloop
      exact ⟨true, copyMaterial m material, by simp [FindMaterial, hlen, hloop]⟩
    · have hno : ∀ (l : Nat) (m1 : OBJECT_MATERIAL K),
          s.m_objectMaterials[l]? = some m1 → m1.tag ≠ tag :=
        fun l m1 h1 ht => hex ⟨l, m1, h1, ht⟩
      have hne : s.m_objectMaterials ≠ [] := by
        intro h; exact hlen (by simp [h])
      exact ⟨true, material, FindMaterial_absent_returns_true s tag material hne hno⟩

end SceneManager

namespace SceneManager

variable {K : Type} [Field K]

/-- One statement of the render pass, run on a scene whose registry holds the five scene
textures and whose shader manager is not `NULL`: it completes, leaves the registry and
the material list alone, and every value it pushes to "objectTexture" is a sampler
index between 0 and 4. -/
theorem runCall_samplers (fm : FloatMath K) (uninit : OBJECT_MATERIAL K) (c : SceneCall K)
    (hc : ∀ t : String, c = SceneCall.SetShaderTexture t → t ∈ sceneTextureTags)
    (r : RenderState K) (sh : ShaderManager K)
    (hreg : sceneTexturesLoaded r.scene) (hsh : r.scene.m_pShaderManager = some sh) :
    ∃ (r1 : RenderState K) (added : List (String × UniformValue K)),
      runCall fm uninit c r = Outcome.ok r1 ∧ sceneTexturesLoaded r1.scene ∧
      r1.scene.m_pShaderManager = some { uniforms := sh.uniforms ++ added } ∧
      ∀ v : UniformValue K, ("objectTexture", v) ∈ added →
        ∃ n : Int, v = UniformValue.sampler2D n ∧ 0 ≤ n ∧ n ≤ 4 := by
  cases c with
  | assignScale v =>
    exact ⟨_, [], rfl, hreg, by simp [hsh], by simp⟩
  | assignPosition v =>
    exact ⟨_, [], rfl, hreg, by simp [hsh], by simp⟩
  | Draw mesh =>
    exact ⟨_, [], rfl, hreg, by simp [hsh], by simp⟩
  | SetTransformations x y z =>
    refine ⟨_, [(g_ModelName, UniformValue.mat4
      (modelView fm r.scaleXYZ x y z r.positionXYZ))], rfl, ?_, ?_, ?_⟩
    · simp only [SetTransformations, hsh]; exact hreg
    · simp [SetTransformations, hsh, ShaderManager.push]
    · intro v hv
      simp [g_ModelName] at hv
  | SetShaderColor red green blue alpha =>
    refine ⟨_, [(g_UseTextureName, UniformValue.int (boolToInt false)),
      (g_ColorValueName, UniformValue.vec4 red green blue alpha)], rfl, ?_, ?_, ?_⟩
    · simp only [SetShaderColor, hsh]; exact hreg
    · simp [SetShaderColor, hsh, ShaderManager.push]
    · intro v hv
      simp [g_UseTextureName, g_ColorValueName] at hv
  | SetTextureUVScale u v =>
    refine ⟨_, [("UVscale", UniformValue.vec2 u v)], rfl, ?_, ?_, ?_⟩
    · simp only [SetTextureUVScale, hsh]; exact hreg
    · simp [SetTextureUVScale, hsh, ShaderManager.push]
    · intro w hw
      simp at hw
  | SetShaderTexture t =>
    obtain ⟨f0, f1, f2, f3, f4⟩ := sceneTexturesLoaded_slots r.scene hreg
    have ht : t ∈ sceneTextureTags := hc t rfl
    have hslot : ∃ n : Int, FindTextureSlot r.scene t = Outcome.ok n ∧ 0 ≤ n ∧ n ≤ 4 := by
      simp only [sceneTextureTags, List.mem_cons, List.mem_singleton, List.not_mem_nil,
        or_false] at ht
      rcases ht with h | h | h | h | h <;> subst h
      · exact ⟨0, f0, by decide, by decide⟩
      · exact ⟨1, f1, by decide, by decide⟩
      · exact ⟨2, f2, by decide, by decide⟩
      · exact ⟨3, f3, by decide, by decide⟩
      · exact ⟨4, f4, by decide, by decide⟩
    obtain ⟨n, hn, hn0, hn4⟩ := hslot
    refine ⟨{ r with scene := { r.scene with m_pShaderManager := some ((sh.push
        g_UseTextureName (UniformValue.int (boolToInt true))).push g_TextureValueName
        (UniformValue.sampler2D n)) } },
      [(g_UseTextureName, UniformValue.int (boolToInt true)),
        (g_TextureValueName, UniformValue.sampler2D n)], ?_, hreg, ?_, ?_⟩
    · simp [runCall, SetShaderTexture, hsh, hn, bind_ok]
    · simp [ShaderManager.push]
    · intro v hv
      simp [g_UseTextureName, g_TextureValueName] at hv
      exact ⟨n, hv, hn0, hn4⟩
  | SetShaderMaterial t =>
    by_cases hlen : r.scene.m_objectMaterials.length > 0
    · obtain ⟨b, out, hfind⟩ := FindMaterial_completes r.scene t uninit
      cases b with
      | true =>
        refine ⟨{ r with scene := { r.scene with m_pShaderManager := some (((((sh.push
              "material.ambientColor" (UniformValue.vec3 out.ambientColor)).push
              "material.ambientStrength" (UniformValue.float out.ambientStrength)).push
              "material.diffuseColor" (UniformValue.vec3 out.diffuseColor)).push
              "material.specularColor" (UniformValue.vec3 out.specularColor)).push
              "material.shininess" (UniformValue.float out.shininess)) } },
          [("material.ambientColor", UniformValue.vec3 out.ambientColor),
            ("material.ambientStrength", UniformValue.float out.ambientStrength),
            ("material.diffuseColor", UniformValue.vec3 out.diffuseColor),
            ("material.specularColor", UniformValue.vec3 out.specularColor),
            ("material.shininess", UniformValue.float out.shininess)], ?_, hreg, ?_, ?_⟩
        · simp [runCall, SetShaderMaterial, hlen, hfind, hsh, bind_ok]
        · simp [ShaderManager.push]
        · intro v hv
          simp at hv
      | false =>
        refine ⟨r, [], ?_, hreg, by simp [hsh], by simp⟩
        simp [runCall, SetShaderMaterial, hlen, hfind, bind_ok]
    · refine ⟨r, [], ?_, hreg, by simp [hsh], by simp⟩
      simp [runCall, SetShaderMaterial, hlen, bind_ok]

/-- A sequence of statements of the render pass whose texture tags are all scene texture
tags: the run completes and every value pushed to "objectTexture" is between 0 and 4. -/
theorem runCalls_samplers (fm : FloatMath K) (uninit : OBJECT_MATERIAL K) :
    ∀ (cs : List (SceneCall K)),
      (∀ t : String, SceneCall.SetShaderTexture t ∈ cs → t ∈ sceneTextureTags) →
      ∀ (r : RenderState K) (sh : ShaderManager K),
        sceneTexturesLoaded r.scene → r.scene.m_pShaderManager = some sh →
        ∃ (r1 : RenderState K) (added : List (String × UniformValue K)),
          runCalls fm uninit cs r = Outcome.ok r1 ∧ sceneTexturesLoaded r1.scene ∧
          r1.scene.m_pShaderManager = some { uniforms := sh.uniforms ++ added } ∧
          ∀ v : UniformValue K, ("objectTexture", v) ∈ added →
            ∃ n : Int, v = UniformValue.sampler2D n ∧ 0 ≤ n ∧ n ≤ 4 := by
  intro cs
  induction cs with
  | nil =>
    intro _ r sh hreg hsh
    exact ⟨r, [], rfl, hreg, by simp [hsh], by simp⟩
  | cons c cs ih =>
    intro hcs r sh hreg hsh
    obtain ⟨r1, a1, e1, hreg1, hsh1, hv1⟩ := runCall_samplers fm uninit c
      (fun t ht => hcs t (by rw [ht]; exact List.mem_cons_self _ _)) r sh hreg hsh
    obtain ⟨r2, a2, e2, hreg2, hsh2, hv2⟩ := ih
      (fun t ht => hcs t (List.mem_cons_of_mem _ ht)) r1 _ hreg1 hsh1
    refine ⟨r2, a1 ++ a2, ?_, hreg2, ?_, ?_⟩
    · simp [runCalls, e1, e2, bind_ok]
    · simp [hsh2, List.append_assoc]
    · intro v hv
      rcases List.mem_append.mp hv with h | h
      · exact hv1 v h
      · exact hv2 v h

/-- The texture tags that the body of `RenderScene` passes to `SetShaderTexture`. -/
theorem RenderScene_texture_tags (t : String)
    (h : SceneCall.SetShaderTexture t ∈ (RenderScene.calls : List (SceneCall K))) :
    t ∈ sceneTextureTags := by
  simp [RenderScene.calls] at h
  simp only [sceneTextureTags, List.mem_cons, List.mem_singleton, List.not_mem_nil, or_false]
  tauto

/-- The material tags that the body of `RenderScene` passes to `SetShaderMaterial`. -/
theorem RenderScene_material_tags (t : String)
    (h : SceneCall.SetShaderMaterial t ∈ (RenderScene.calls : List (SceneCall K))) :
    t = "wood" ∨ t = "fabric" ∨ t = "ceramic" := by
  simp [RenderScene.calls] at h
  tauto

end SceneManager

namespace SceneManager

/-- C14: when all five texture files are loadable, `LoadSceneTextures` on the freshly
constructed scene manager completes and the tags resolve to the slots wood 0, ceramic 1,
fabric 2, glass 3, wall 4; every `SetShaderTexture` call in the body of `RenderScene`
passes one of these five tags, so a run of `RenderScene` (after `DefineObjectMaterials`,
with any non-`NULL` shader manager) completes and every value it pushes to
"objectTexture" is a sampler index between 0 and 4, never `-1`; and every tag that the
body passes to `SetShaderMaterial` is carried by a material that `DefineObjectMaterials`
appends. -/
theorem RenderScene_tags_resolve (K : Type) [Field K] (stbi_load : String → Option STBImage)
    (p : Option (ShaderManager K)) (gl : GLContext)
    (h1 : loadable stbi_load "debug\\textures\\wood.jpg")
    (h2 : loadable stbi_load "debug\\textures\\ceramic.jpg")
    (h3 : loadable stbi_load "debug\\textures\\fabric.jpg")
    (h4 : loadable stbi_load "debug\\textures\\glass.jpg")
    (h5 : loadable stbi_load "debug\\textures\\wall.jpg") :
    ∃ (s5 : SceneManager K) (gl6 : GLContext),
      LoadSceneTextures stbi_load (construct p) gl = Outcome.ok (s5, gl6) ∧
      FindTextureSlot s5 "wood" = Outcome.ok 0 ∧ FindTextureSlot s5 "ceramic" = Outcome.ok 1 ∧
      FindTextureSlot s5 "fabric" = Outcome.ok 2 ∧ FindTextureSlot s5 "glass" = Outcome.ok 3 ∧
      FindTextureSlot s5 "wall" = Outcome.ok 4 ∧
      (∀ t : String, SceneCall.SetShaderTexture t ∈ (RenderScene.calls : List (SceneCall K)) →
        t = "wood" ∨ t = "ceramic" ∨ t = "fabric" ∨ t = "glass" ∨ t = "wall") ∧
      (∀ (fm : FloatMath K) (uninit : OBJECT_MATERIAL K) (scale0 position0 : Vec3 K)
          (sh : ShaderManager K),
        ∃ (r : RenderState K) (added : List (String × UniformValue K)),
          RenderScene fm uninit scale0 position0
              { DefineObjectMaterials s5 with m_pShaderManager := some sh } = Outcome.ok r ∧
          r.scene.m_pShaderManager = some { uniforms := sh.uniforms ++ added } ∧
          ∀ v : UniformValue K, ("objectTexture", v) ∈ added →
            ∃ n : Int, v = UniformValue.sampler2D n ∧ 0 ≤ n ∧ n ≤ 4) ∧
      (∀ t : String, SceneCall.SetShaderMaterial t ∈ (RenderScene.calls : List (SceneCall K)) →
        ∃ m ∈ (DefineObjectMaterials s5).m_objectMaterials, m.tag = t) := by
  obtain ⟨s5, gl6, hload, hreg⟩ := LoadSceneTextures_all_loaded stbi_load p gl h1 h2 h3 h4 h5
  obtain ⟨f0, f1, f2, f3, f4⟩ := sceneTexturesLoaded_slots s5 hreg
  refine ⟨s5, gl6, hload, f0, f1, f2, f3, f4, ?_, ?_, ?_⟩
  · intro t ht
    have := RenderScene_texture_tags t ht
    simpa [sceneTextureTags] using this
  · intro fm uninit scale0 position0 sh
    obtain ⟨r, added, e, _, hsh, hv⟩ := runCalls_samplers fm uninit RenderScene.calls
      RenderScene_texture_tags
      { scene := { DefineObjectMaterials s5 with m_pShaderManager := some sh },
        scaleXYZ := scale0, positionXYZ := position0, drawn := [] } sh hreg rfl
    exact ⟨r, added, e, hsh, hv⟩
  · intro t ht
    rcases RenderScene_material_tags t ht with h | h | h <;> subst h
    · exact ⟨_, List.mem_append_right _ (List.mem_cons_self _ _), rfl⟩
    · exact ⟨_, List.mem_append_right _ (List.mem_cons_of_mem _ (List.mem_cons_of_mem _
        (List.mem_cons_self _ _))), rfl⟩
    · exact ⟨_, List.mem_append_right _ (List.mem_cons_of_mem _ (List.mem_cons_self _ _)),
        rfl⟩

/-- C14, with the decoder for which the five scene texture files decode, from the
constructor state with a `NULL` shader manager and an OpenGL context without calls. -/
theorem RenderScene_tags_resolve_witness :
    ∃ (s5 : SceneManager ℚ) (gl6 : GLContext),
      LoadSceneTextures sceneDecoder (construct none) emptyGL = Outcome.ok (s5, gl6) ∧
      FindTextureSlot s5 "wood" = Outcome.ok 0 ∧ FindTextureSlot s5 "ceramic" = Outcome.ok 1 ∧
      FindTextureSlot s5 "fabric" = Outcome.ok 2 ∧ FindTextureSlot s5 "glass" = Outcome.ok 3 ∧
      FindTextureSlot s5 "wall" = Outcome.ok 4 ∧
      (∀ t : String, SceneCall.SetShaderTexture t ∈ (RenderScene.calls : List (SceneCall ℚ)) →
        t = "wood" ∨ t = "ceramic" ∨ t = "fabric" ∨ t = "glass" ∨ t = "wall") ∧
      (∀ (fm : FloatMath ℚ) (uninit : OBJECT_MATERIAL ℚ) (scale0 position0 : Vec3 ℚ)
          (sh : ShaderManager ℚ),
        ∃ (r : RenderState ℚ) (added : List (String × UniformValue ℚ)),
          RenderScene fm uninit scale0 position0
              { DefineObjectMaterials s5 with m_pShaderManager := some sh } = Outcome.ok r ∧
          r.scene.m_pShaderManager = some { uniforms := sh.uniforms ++ added } ∧
          ∀ v : UniformValue ℚ, ("objectTexture", v) ∈ added →
            ∃ n : Int, v = UniformValue.sampler2D n ∧ 0 ≤ n ∧ n ≤ 4) ∧
      (∀ t : String, SceneCall.SetShaderMaterial t ∈ (RenderScene.calls : List (SceneCall ℚ)) →
        ∃ m ∈ (DefineObjectMaterials s5).m_objectMaterials, m.tag = t) :=
  RenderScene_tags_resolve ℚ sceneDecoder none emptyGL
    ⟨{ width := 4, height := 4, colorChannels := 3 }, by decide, by decide⟩
    ⟨{ width := 4, height := 4, colorChannels := 3 }, by decide, by decide⟩
    ⟨{ width := 4, height := 4, colorChannels := 3 }, by decide, by decide⟩
    ⟨{ width := 4, height := 4, colorChannels := 4 }, by decide, by decide⟩
    ⟨{ width := 4, height := 4, colorChannels := 3 }, by decide, by decide⟩

end SceneManager
